import Mathlib

/-!
Verification development for the mcp-abap-connection session/connection core.

The definitions below are a shallow embedding of the TypeScript sources:
  - `src/src/connection/JwtAbapConnection.ts` (JWT variant: token refresh,
    permission classification, 401/403 retry-once logic),
  - `src/unnamed/part_007` (`AbstractAbapConnection`: request pipeline,
    cookie jar, CSRF token manager, session-state snapshot),
  - `src/src/utils/tokenRefresh.ts` (`refreshJwtToken`),
  - `src/src/connection/csrfConfig.ts` (CSRF retry constants).

JavaScript nullable strings (`string | null | undefined`) are modelled as
`Option String`; JS truthiness of such a value (`if (x)`) is `jsTruthy`.
JS `Map` and plain header objects are modelled as insertion-ordered
association lists with upsert (`storeSet`), matching `Map.set` /
property-assignment semantics (an existing key keeps its position).
Network I/O is modelled by oracles: `oracle : Nat -> ReqOutcome` gives the
outcome of each successive axios transport call, and
`refreshO : Nat -> RefreshWire` gives the outcome of each successive call
to the OAuth token endpoint.
-/

namespace AbapConn

/-- JS truthiness of a `string | null | undefined` value: `null`/`undefined`
and the empty string are falsy. -/
def jsTruthy : Option String → Bool
  | none => false
  | some s => s ≠ ""

/-- JS `String.prototype.includes`: contiguous-substring test. -/
def strContains (hay needle : String) : Bool :=
  decide (needle.toList <:+: hay.toList)

/-- JS `String.prototype.toUpperCase` (ASCII range, which is all the
pipeline upper-cases: HTTP method names). -/
def jsToUpper (s : String) : String :=
  String.mk (s.toList.map Char.toUpper)

/-- JS `String.prototype.trim`. -/
def jsTrim (s : String) : String :=
  String.mk (((s.toList.dropWhile Char.isWhitespace).reverse.dropWhile
    Char.isWhitespace).reverse)

/-- The substring before the first occurrence of `c` (the whole string if
`c` does not occur): JS `s.split(c)[0]` for a one-character separator. -/
def beforeFirst (c : Char) (s : String) : String :=
  String.mk (s.toList.takeWhile (fun ch => ch ≠ c))

/-- The substring after the first occurrence of `c`, or `""` if `c` does
not occur: JS `s.split(c).slice(1).join(c)` for a one-character
separator. -/
def afterFirst (c : Char) (s : String) : String :=
  String.mk ((s.toList.dropWhile (fun ch => ch ≠ c)).tail)

/-- `xs.join(sep)`. -/
def joinWith (sep : String) : List String → String
  | [] => ""
  | [x] => x
  | x :: xs => x ++ sep ++ joinWith sep xs

/-- Upsert into an insertion-ordered association list.  Models JS
`Map.set` and object property assignment: an existing key is updated in
place (keeping its position), a new key is appended.  Keys are unique in
every store built through this function, so replacing the first occurrence
is exact. -/
def storeSet : List (String × String) → String → String → List (String × String)
  | [], k, v => [(k, v)]
  | p :: rest, k, v => if p.1 = k then (k, v) :: rest else p :: storeSet rest k v

/-- Lookup in an association list (JS `Map.get` / object property read). -/
def storeGet : List (String × String) → String → Option String
  | [], _ => none
  | p :: rest, k => if p.1 = k then some p.2 else storeGet rest k

/-- Auth scheme of a connection (`SapConfig.authType`). -/
inductive AuthType where
  | basic
  | jwt
deriving DecidableEq, Repr

/-- `SapConfig` from `src/src/config/sapConfig.ts`. -/
structure SapConfig where
  url : String
  client : Option String
  authType : AuthType
  username : Option String
  password : Option String
  jwtToken : Option String
  refreshToken : Option String
  uaaUrl : Option String
  uaaClientId : Option String
  uaaClientSecret : Option String
deriving DecidableEq, Repr

/-- The mutable per-connection fields of `AbstractAbapConnection` that the
claims are about: the cached CSRF token, the raw cookie header string, the
cookie name-to-value map, and the (shared, mutable) configuration object. -/
structure Conn where
  csrfToken : Option String
  cookies : Option String
  cookieStore : List (String × String)
  config : SapConfig
deriving DecidableEq, Repr

/-- `SessionState` snapshot shape (`getSessionState` / `setSessionState`). -/
structure SessionSnap where
  cookies : Option String
  csrfToken : Option String
  cookieStore : List (String × String)
deriving DecidableEq, Repr

/-! ## Cookie jar (`AbstractAbapConnection.updateCookiesFromResponse`) -/

/-- Processing of one `Set-Cookie` entry (the body of the `for` loop in
`updateCookiesFromResponse`): take the substring before the first `;`,
split that on the first `=` into name and value (`rest.join("=")` re-joins
everything after the first `=`), trim both, skip empty names, upsert. -/
def ingestEntry (store : List (String × String)) (entry : String) :
    List (String × String) :=
  let nameValue := beforeFirst ';' entry
  if nameValue = "" then store
  else
    let name := beforeFirst '=' nameValue
    if name = "" then store
    else
      let trimmedName := jsTrim name
      let trimmedValue := jsTrim (afterFirst '=' nameValue)
      if trimmedName = "" then store
      else storeSet store trimmedName trimmedValue

/-- Ingest a list of `Set-Cookie` entries in order. -/
def ingestEntries (store : List (String × String)) (entries : List String) :
    List (String × String) :=
  entries.foldl ingestEntry store

/-- Render the cookie map into the `Cookie` header string: `name=value`
pairs joined with `"; "`, except that a pair whose value is empty renders
as the bare name (`value ? name=value : name` in the source). -/
def renderCookies (store : List (String × String)) : String :=
  joinWith "; " (store.map fun p => if p.2 = "" then p.1 else p.1 ++ "=" ++ p.2)

/-- `updateCookiesFromResponse`: `none` models an absent `set-cookie`
response header (early return); otherwise every entry is ingested and, if
the store is non-empty and the rendered string non-empty, the raw cookie
header string is re-derived from the map. -/
def updateCookiesFromResponse (c : Conn) (setCookies : Option (List String)) : Conn :=
  match setCookies with
  | none => c
  | some entries =>
    let store := ingestEntries c.cookieStore entries
    if store.isEmpty then { c with cookieStore := store }
    else
      let combined := renderCookies store
      if combined = "" then { c with cookieStore := store }
      else { c with cookieStore := store, cookies := some combined }

/-! ## Session-state snapshot (`getSessionState` / `setSessionState` / `reset`) -/

/-- `getSessionState`: returns `none` when both the raw cookie string and
the CSRF token are JS-falsy, else the snapshot of all three fields. -/
def getSessionState (c : Conn) : Option SessionSnap :=
  if !jsTruthy c.cookies && !jsTruthy c.csrfToken then none
  else some ⟨c.cookies, c.csrfToken, c.cookieStore⟩

/-- `setSessionState`: `state.cookies || null` collapses falsy values to
`null`; the cookie map is rebuilt from the snapshot. -/
def setSessionState (c : Conn) (st : SessionSnap) : Conn :=
  { c with
    cookies := if jsTruthy st.cookies then st.cookies else none,
    csrfToken := if jsTruthy st.csrfToken then st.csrfToken else none,
    cookieStore := st.cookieStore }

/-- `reset()`: clears CSRF token, raw cookie string and cookie map; the
configuration is untouched. -/
def resetConn (c : Conn) : Conn :=
  { c with csrfToken := none, cookies := none, cookieStore := [] }

/-! ## Authorization header -/

/-- The base64 alphabet. -/
def base64Chars : List Char :=
  "ABCDEFGHIJKLMNOPQRSTUVWXYZabcdefghijklmnopqrstuvwxyz0123456789+/".toList

/-- One base64 digit. -/
def b64Char (n : Nat) : Char := base64Chars.getD n 'A'

/-- Standard base64 of a byte list (values < 256), with `=` padding. -/
def base64Rec : List Nat → List Char
  | [] => []
  | [a] => [b64Char (a / 4), b64Char (a % 4 * 16), '=', '=']
  | [a, b] => [b64Char (a / 4), b64Char (a % 4 * 16 + b / 16), b64Char (b % 16 * 4), '=']
  | a :: b :: cc :: rest =>
    b64Char (a / 4) :: b64Char (a % 4 * 16 + b / 16) ::
      b64Char (b % 16 * 4 + cc / 64) :: b64Char (cc % 64) :: base64Rec rest

/-- `Buffer.from(s).toString("base64")`: base64 of the UTF-8 bytes. -/
def base64Encode (s : String) : String :=
  String.mk (base64Rec (s.toUTF8.toList.map (fun b => b.toNat)))

/-- `buildAuthorizationHeader` of the two concrete variants:
`BaseAbapConnection` renders `Basic base64(username:password)` (missing
fields default to `""` via `?? ""`); `JwtAbapConnection` renders
`Bearer <jwtToken>` (a missing token would interpolate as the JS string
`"undefined"`, though construction-time validation rules that out). -/
def buildAuthorizationHeader (cfg : SapConfig) : String :=
  match cfg.authType with
  | .basic => "Basic " ++ base64Encode ((cfg.username.getD "") ++ ":" ++ (cfg.password.getD ""))
  | .jwt => "Bearer " ++ (cfg.jwtToken.getD "undefined")

/-- `getAuthHeaders`: `X-SAP-Client` when a client is configured, plus the
`Authorization` header when non-empty. -/
def getAuthHeaders (cfg : SapConfig) : List (String × String) :=
  let headers : List (String × String) := []
  let headers :=
    if jsTruthy cfg.client then storeSet headers "X-SAP-Client" (cfg.client.getD "")
    else headers
  let authorization := buildAuthorizationHeader cfg
  if authorization ≠ "" then storeSet headers "Authorization" authorization else headers

/-! ## Request-header assembly (`makeAdtRequest`, part_007 lines 299-375) -/

/-- Session-header mode of a connection. -/
inductive SessionMode where
  | stateless
  | stateful
deriving DecidableEq, Repr

/-- `AbapRequestOptions` fields that affect header assembly.  The caller
header object is modelled as a list of entries (an absent object behaves
like the empty list for every lookup and merge). -/
structure ReqOptions where
  url : String
  method : String
  data : Option String
  headers : List (String × String)
deriving DecidableEq, Repr

/-- `POST`/`PUT`/`DELETE` test used throughout the pipeline. -/
def mutatingMethod (m : String) : Bool :=
  m = "POST" || m = "PUT" || m = "DELETE"

/-- `Object.assign(acc, hs)`: upsert every entry of `hs` in order. -/
def mergeHeaders (h : List (String × String)) (hs : List (String × String)) :
    List (String × String) :=
  hs.foldl (fun acc p => storeSet acc p.1 p.2) h

/-- Header assembly of `AbstractAbapConnection.makeAdtRequest`:
default `Accept` unless the caller supplied a truthy one; merge caller
headers; always set `sap-adt-connection-id` (the session id is always
generated); stateful-mode headers (the per-request id `reqId` models the
fresh `randomUUID`); auth headers; the cached CSRF token for mutating
methods; cookies last; then content-type defaulting for truthy string
bodies on POST/PUT, with the usage-references special case
(`requestUrl` is `baseUrl + endpoint`; `baseUrl` is the URL origin derived
from the configured URL at construction, passed in here). -/
def buildBaseHeaders (cfg : SapConfig) (sessionId : Option String)
    (mode : SessionMode) (reqId : String) (opts : ReqOptions) :
    List (String × String) :=
  let h : List (String × String) :=
    if !jsTruthy (storeGet opts.headers "Accept") then
      [("Accept", "application/xml, application/json, text/plain, */*")]
    else []
  let h := mergeHeaders h opts.headers
  let h :=
    if jsTruthy sessionId then storeSet h "sap-adt-connection-id" (sessionId.getD "")
    else h
  let h :=
    if mode = SessionMode.stateful then
      storeSet (storeSet (storeSet h "x-sap-adt-sessiontype" "stateful")
        "sap-adt-request-id" reqId) "X-sap-adt-profiling" "server-time"
    else h
  mergeHeaders h (getAuthHeaders cfg)

/-- Content-type defaulting for truthy string bodies on POST/PUT (part_007
lines 358-367), with the usage-references special case. -/
def contentTypeStep (normalizedMethod requestUrl : String) (data : Option String)
    (h : List (String × String)) : List (String × String) :=
  if (normalizedMethod = "POST" || normalizedMethod = "PUT") && jsTruthy data then
    if !jsTruthy (storeGet h "Content-Type") then
      if strContains requestUrl "/usageReferences" &&
          strContains (data.getD "") "usageReferenceRequest" then
        storeSet (storeSet h "Content-Type"
            "application/vnd.sap.adt.repository.usagereferences.request.v1+xml")
          "Accept" "application/vnd.sap.adt.repository.usagereferences.result.v1+xml"
      else storeSet h "Content-Type" "text/plain; charset=utf-8"
    else h
  else h

def buildRequestHeaders (c : Conn) (baseUrl : String) (sessionId : Option String)
    (mode : SessionMode) (reqId : String) (opts : ReqOptions) :
    List (String × String) :=
  let normalizedMethod := jsToUpper opts.method
  let requestUrl := baseUrl ++ opts.url
  let h := buildBaseHeaders c.config sessionId mode reqId opts
  let h :=
    if mutatingMethod normalizedMethod && jsTruthy c.csrfToken then
      storeSet h "x-csrf-token" (c.csrfToken.getD "")
    else h
  let h := if jsTruthy c.cookies then storeSet h "Cookie" (c.cookies.getD "") else h
  contentTypeStep normalizedMethod requestUrl opts.data h

/-! ## Transport oracle and run model -/

/-- An HTTP response as seen by the pipeline: status, body text, the
`set-cookie` response header (absent or a list of entries) and the
`x-csrf-token` response header. -/
structure Resp where
  status : Nat
  body : String
  setCookies : Option (List String)
  csrfHeader : Option String
deriving DecidableEq, Repr

/-- Outcome of one axios transport call: success, an `AxiosError` carrying
an HTTP response, or an `AxiosError` with no response (network/transport
failure: connection refused, timeout, DNS failure, reset, unreachable). -/
inductive ReqOutcome where
  | ok (r : Resp)
  | httpErr (r : Resp)
  | netErr (msg : String)
deriving DecidableEq, Repr

/-- Errors propagated out of the pipeline. -/
inductive AbapError where
  | http (r : Resp)
  | net (msg : String)
  | csrfFetchFailed (attempts : Nat) (msg : String)
  | csrfMissing
  | terminalAuth (msg : String)
  | unexpected (msg : String)
deriving DecidableEq, Repr

/-- Observable events of a run: transport calls issued with the original
request config (`main`), `fetchCsrfToken` invocations with the retry
budget they were given, and token-endpoint (refresh) network calls. -/
inductive Event where
  | main (o : ReqOutcome)
  | csrf (retryCount retryDelay : Nat)
  | refresh
deriving DecidableEq, Repr

/-- Threaded run state: connection fields, transport-oracle index,
refresh-oracle index, and the number of `updateCookiesFromResponse` calls
made on response headers. -/
structure RunS where
  conn : Conn
  i : Nat
  ri : Nat
  ing : Nat
deriving DecidableEq, Repr

/-- One `updateCookiesFromResponse(response.headers)` call. -/
def ingestResp (q : RunS) (r : Resp) : RunS :=
  { q with conn := updateCookiesFromResponse q.conn r.setCookies, ing := q.ing + 1 }

/-- The attempt loop of `fetchCsrfToken` with `remaining` attempts left
(`remaining = retryCount + 1` at entry; the source loops
`attempt = 0 .. retryCount`).  Success is a truthy `x-csrf-token`
response header, also honored on an error response (405 or otherwise);
cookies are ingested from every response, success or error, and a second
ingest happens on the paths the source calls
`updateCookiesFromResponse` twice.  On exhaustion, an `AxiosError` with a
response is rethrown as-is, otherwise `FETCH_FAILED` is raised. -/
def fetchCsrfAux (oracle : Nat → ReqOutcome) (retryCount : Nat) :
    Nat → RunS → (Except AbapError String) × RunS
  | 0, q => (.error (.unexpected "CSRF token fetch failed unexpectedly"), q)
  | remaining + 1, q =>
    let o := oracle q.i
    let q := { q with i := q.i + 1 }
    match o with
    | .ok r =>
      let q := ingestResp q r
      if jsTruthy r.csrfHeader then
        let q := if r.setCookies.isSome then ingestResp q r else q
        (.ok (r.csrfHeader.getD ""), q)
      else if remaining > 0 then fetchCsrfAux oracle retryCount remaining q
      else (.error .csrfMissing, q)
    | .httpErr r =>
      let q := ingestResp q r
      if r.status = 405 && jsTruthy r.csrfHeader then
        (.ok (r.csrfHeader.getD ""), ingestResp q r)
      else if jsTruthy r.csrfHeader then
        (.ok (r.csrfHeader.getD ""), ingestResp q r)
      else if remaining > 0 then fetchCsrfAux oracle retryCount remaining q
      else (.error (.http r), q)
    | .netErr m =>
      if remaining > 0 then fetchCsrfAux oracle retryCount remaining q
      else (.error (.csrfFetchFailed (retryCount + 1) m), q)

/-- `fetchCsrfToken(url, retryCount, retryDelay)`: one `csrf` event
records the retry budget, then the attempt loop runs (`retryDelay` only
controls the sleep between attempts). -/
def fetchCsrfR (oracle : Nat → ReqOutcome) (retryCount retryDelay : Nat) (q : RunS) :
    (Except AbapError String) × RunS × List Event :=
  let (res, q1) := fetchCsrfAux oracle retryCount (retryCount + 1) q
  (res, q1, [.csrf retryCount retryDelay])

/-- The `responseText` computed in `shouldRetryCsrf`: the string body of
the error response, or — when the error has no response — the JS value
`JSON.stringify(undefined || "")`, which is the two-character string of
quotes. -/
def responseTextOf : ReqOutcome → String
  | .httpErr r => r.body
  | .netErr _ => "\"\""
  | .ok r => r.body

/-- `error.response?.status === n`. -/
def errStatusIs : ReqOutcome → Nat → Bool
  | .httpErr r, n => r.status = n
  | _, _ => false

/-- Rethrowing a transport error as received. -/
def outcomeToError : ReqOutcome → AbapError
  | .httpErr r => .http r
  | .netErr m => .net m
  | .ok r => .http r

/-- `AbstractAbapConnection.shouldRetryCsrf(error)`: never for the JWT
scheme; else 403 with a body mentioning `CSRF`, or a body mentioning
`CSRF token`, or 401 on a mutating request config while no CSRF token is
cached.  `cfgMethod` models `error.config?.method`.  The `.ok` case is
unreachable (only caught errors are classified). -/
def shouldRetryCsrf (c : Conn) (e : ReqOutcome) (cfgMethod : Option String) : Bool :=
  match e with
  | .ok _ => false
  | _ =>
    let responseText := responseTextOf e
    if c.config.authType = AuthType.jwt then false
    else
      let isPostPutDelete := (cfgMethod.map jsToUpper).elim false mutatingMethod
      let needsCsrfToken := isPostPutDelete && !jsTruthy c.csrfToken
      (errStatusIs e 403 && strContains responseText "CSRF") ||
      strContains responseText "CSRF token" ||
      (needsCsrfToken && errStatusIs e 401)

/-- Issue the already-built request config once more and return that
outcome (shape shared by the CSRF retry and the basic-auth 401 retry: a
success ingests cookies; an error propagates as thrown). -/
def replayOnce (oracle : Nat → ReqOutcome) (q : RunS) :
    (Except AbapError Resp) × RunS × List Event :=
  let o := oracle q.i
  let q := { q with i := q.i + 1 }
  match o with
  | .ok r => (.ok r, ingestResp q r, [.main (.ok r)])
  | .httpErr r => (.error (.http r), q, [.main (.httpErr r)])
  | .netErr m => (.error (.net m), q, [.main (.netErr m)])

/-- The 401-on-GET recovery for basic auth (part_007 lines 465-504): if
cookies are already known (typically from this very error response),
replay immediately; otherwise try a CSRF fetch solely to obtain cookies
and replay if that produced cookies; otherwise rethrow the original
error.  A CSRF-fetch failure also falls through to the original error. -/
def basic401GetPath (oracle : Nat → ReqOutcome) (q : RunS) (e : ReqOutcome) :
    (Except AbapError Resp) × RunS × List Event :=
  if jsTruthy q.conn.cookies then
    replayOnce oracle q
  else
    match fetchCsrfR oracle 3 1000 q with
    | (.ok t, q1, ev) =>
      let q1 := { q1 with conn := { q1.conn with csrfToken := some t } }
      if jsTruthy q1.conn.cookies then
        let (res, q2, ev2) := replayOnce oracle q1
        (res, q2, ev ++ ev2)
      else (.error (outcomeToError e), q1, ev)
    | (.error _, q1, ev) => (.error (outcomeToError e), q1, ev)

/-- The retry decision logic in the catch block of
`AbstractAbapConnection.makeAdtRequest` (cookies from an error response
were already ingested by the caller): a CSRF-invalid classification
re-fetches the token with budget (5, 2000) and replays exactly once,
returning that outcome; else the basic-auth 401-on-GET branch; else the
original error is rethrown.  A failure of the (5, 2000) fetch itself
propagates (the source does not catch it). -/
def recoverFromError (oracle : Nat → ReqOutcome) (normalizedMethod : String)
    (q : RunS) (e : ReqOutcome) : (Except AbapError Resp) × RunS × List Event :=
  if shouldRetryCsrf q.conn e (some normalizedMethod) then
    match fetchCsrfR oracle 5 2000 q with
    | (.error err, q1, ev) => (.error err, q1, ev)
    | (.ok t, q1, ev) =>
      let q1 := { q1 with conn := { q1.conn with csrfToken := some t } }
      let (res, q2, ev2) := replayOnce oracle q1
      (res, q2, ev ++ ev2)
  else if errStatusIs e 401 && normalizedMethod = "GET" &&
      q.conn.config.authType = AuthType.basic then
    basic401GetPath oracle q e
  else (.error (outcomeToError e), q, [])

/-- The try/catch body of `AbstractAbapConnection.makeAdtRequest` after
header assembly: one transport call with the built request config; a
success ingests cookies and returns; an error with a response ingests its
cookies and then the retry decision logic runs. -/
def mainAndRecover (oracle : Nat → ReqOutcome) (normalizedMethod : String) (q : RunS) :
    (Except AbapError Resp) × RunS × List Event :=
  let o := oracle q.i
  let q1 := { q with i := q.i + 1 }
  match o with
  | .ok r => (.ok r, ingestResp q1 r, [.main (.ok r)])
  | .httpErr r =>
    let (res, q2, ev) := recoverFromError oracle normalizedMethod (ingestResp q1 r) (.httpErr r)
    (res, q2, .main (.httpErr r) :: ev)
  | .netErr m =>
    let (res, q2, ev) := recoverFromError oracle normalizedMethod q1 (.netErr m)
    (res, q2, .main (.netErr m) :: ev)

/-- Step 1 of `makeAdtRequest` (`ensureFreshCsrfToken`): for mutating
methods with no cached token, a best-effort CSRF fetch with the default
budget `CSRF_CONFIG.RETRY_COUNT = 3`, `RETRY_DELAY = 1000`; failures are
swallowed. -/
def upfrontCsrfStep (oracle : Nat → ReqOutcome) (normalizedMethod : String) (q : RunS) :
    RunS × List Event :=
  if mutatingMethod normalizedMethod && !jsTruthy q.conn.csrfToken then
    match fetchCsrfR oracle 3 1000 q with
    | (.ok t, q1, ev) => ({ q1 with conn := { q1.conn with csrfToken := some t } }, ev)
    | (.error _, q1, ev) => (q1, ev)
  else (q, [])

/-- `AbstractAbapConnection.makeAdtRequest` (retry-relevant behavior):
step 1 opportunistic CSRF fetch, then the transport call and the retry
decision logic.  Header assembly is modelled by `buildRequestHeaders`
above and does not influence this control flow. -/
def baseRun (oracle : Nat → ReqOutcome) (opts : ReqOptions) (q : RunS) :
    (Except AbapError Resp) × RunS × List Event :=
  let normalizedMethod := jsToUpper opts.method
  let (q1, ev1) := upfrontCsrfStep oracle normalizedMethod q
  let (res, q2, ev2) := mainAndRecover oracle normalizedMethod q1
  (res, q2, ev1 ++ ev2)

/-! ## JWT refresh, connect, and the JWT request wrapper -/

/-- Wire outcome of one call to the OAuth token endpoint: the
`access_token` and `refresh_token` fields of the response JSON (either may
be absent), or a transport/HTTP failure. -/
inductive RefreshWire where
  | ok (accessToken : Option String) (refreshToken : Option String)
  | fail (msg : String)
deriving DecidableEq, Repr

/-- `refreshJwtToken` (src/src/utils/tokenRefresh.ts): on a response with
a truthy `access_token`, return it together with
`refresh_token || refreshToken` (the new refresh token if provided, else
the old one); otherwise an error. -/
def refreshJwtToken (oldRefresh : String) (w : RefreshWire) :
    Except String (String × String) :=
  match w with
  | .ok a rt =>
    if jsTruthy a then .ok (a.getD "", if jsTruthy rt then rt.getD "" else oldRefresh)
    else .error "Response does not contain access_token"
  | .fail m => .error ("Token refresh failed: " ++ m)

/-- `JwtAbapConnection.canRefreshToken()`. -/
def canRefreshToken (cfg : SapConfig) : Bool :=
  jsTruthy cfg.refreshToken && jsTruthy cfg.uaaUrl &&
    jsTruthy cfg.uaaClientId && jsTruthy cfg.uaaClientSecret

/-- Sequential body of `JwtAbapConnection.refreshToken()` (the in-flight
de-duplication guard is modelled by `RefreshSys` below): precondition
checks; one token-endpoint call (`refresh` event); on success the config's
`jwtToken` is replaced, its `refreshToken` is replaced when the result
carries a truthy one, and `reset()` clears CSRF token and cookie jar. -/
def refreshTokenM (refreshO : Nat → RefreshWire) (q : RunS) :
    (Except AbapError Unit) × RunS × List Event :=
  let cfg := q.conn.config
  if !jsTruthy cfg.refreshToken then
    (.error (.terminalAuth "Refresh token is not available. Please re-authenticate."), q, [])
  else if !(jsTruthy cfg.uaaUrl && jsTruthy cfg.uaaClientId && jsTruthy cfg.uaaClientSecret) then
    (.error (.terminalAuth "UAA credentials are not available for token refresh."), q, [])
  else
    let w := refreshO q.ri
    let q := { q with ri := q.ri + 1 }
    match refreshJwtToken (cfg.refreshToken.getD "") w with
    | .error m => (.error (.unexpected m), q, [.refresh])
    | .ok (access, newRefresh) =>
      let cfg := { cfg with jwtToken := some access }
      let cfg := if newRefresh ≠ "" then { cfg with refreshToken := some newRefresh } else cfg
      (.ok (), { q with conn := resetConn { q.conn with config := cfg } }, [.refresh])

/-- The permission-denied body check of `JwtAbapConnection` (`connect` and
`makeAdtRequest`): case-sensitive `String.includes` against three fixed
markers. -/
def isPermissionText (t : String) : Bool :=
  strContains t "ExceptionResourceNoAccess" ||
    strContains t "No authorization" ||
    strContains t "Missing authorization"

/-- `JwtAbapConnection.connect()` with no session storage configured (the
storage branches no-op): CSRF fetch with budget (3, 1000); on success the
token is cached; a 401/403 `AxiosError` whose body carries a permission
marker propagates unchanged; otherwise, with refresh capability, refresh
once and re-fetch, any failure inside that recovery becoming the terminal
re-authenticate error; without refresh capability the terminal expired
error; other errors propagate. -/
def connectRun (oracle : Nat → ReqOutcome) (refreshO : Nat → RefreshWire) (q : RunS) :
    (Except AbapError Unit) × RunS × List Event :=
  match fetchCsrfR oracle 3 1000 q with
  | (.ok t, q1, ev) => (.ok (), { q1 with conn := { q1.conn with csrfToken := some t } }, ev)
  | (.error e, q1, ev) =>
    match e with
    | .http r =>
      if r.status = 401 || r.status = 403 then
        if isPermissionText r.body then (.error (.http r), q1, ev)
        else if canRefreshToken q1.conn.config then
          match refreshTokenM refreshO q1 with
          | (.error _, q2, ev2) =>
            (.error (.terminalAuth "JWT token has expired and refresh failed. Please re-authenticate."),
              q2, ev ++ ev2)
          | (.ok _, q2, ev2) =>
            match fetchCsrfR oracle 3 1000 q2 with
            | (.ok t2, q3, ev3) =>
              (.ok (), { q3 with conn := { q3.conn with csrfToken := some t2 } }, ev ++ ev2 ++ ev3)
            | (.error _, q3, ev3) =>
              (.error (.terminalAuth "JWT token has expired and refresh failed. Please re-authenticate."),
                q3, ev ++ ev2 ++ ev3)
        else
          (.error (.terminalAuth "JWT token has expired. Please refresh your authentication token."),
            q1, ev)
      else (.error (.http r), q1, ev)
    | _ => (.error e, q1, ev)

/-- `JwtAbapConnection.makeAdtRequest`: run the base pipeline; on a
401/403 `AxiosError`, a permission-marker body propagates unchanged; for
auth errors with refresh capability: refresh (failure becomes the terminal
re-authenticate error), reconnect (failure swallowed), then retry the base
pipeline once; a 401/403 on that retry becomes the terminal
re-authenticate error, any other retry error propagates. -/
def jwtRun (oracle : Nat → ReqOutcome) (refreshO : Nat → RefreshWire)
    (opts : ReqOptions) (q : RunS) : (Except AbapError Resp) × RunS × List Event :=
  match baseRun oracle opts q with
  | (.ok r, q1, ev) => (.ok r, q1, ev)
  | (.error e, q1, ev) =>
    match e with
    | .http r =>
      if r.status = 401 || r.status = 403 then
        if isPermissionText r.body then (.error (.http r), q1, ev)
        else if canRefreshToken q1.conn.config then
          match refreshTokenM refreshO q1 with
          | (.error _, q2, ev2) =>
            (.error (.terminalAuth "JWT token has expired and refresh failed. Please re-authenticate."),
              q2, ev ++ ev2)
          | (.ok _, q2, ev2) =>
            let (_, q3, ev3) := connectRun oracle refreshO q2
            match baseRun oracle opts q3 with
            | (.ok r2, q4, ev4) => (.ok r2, q4, ev ++ ev2 ++ ev3 ++ ev4)
            | (.error (.http r2), q4, ev4) =>
              if r2.status = 401 || r2.status = 403 then
                (.error (.terminalAuth "JWT token has expired and refresh failed. Please re-authenticate."),
                  q4, ev ++ ev2 ++ ev3 ++ ev4)
              else (.error (.http r2), q4, ev ++ ev2 ++ ev3 ++ ev4)
            | (.error e2, q4, ev4) => (.error e2, q4, ev ++ ev2 ++ ev3 ++ ev4)
        else
          (.error (.terminalAuth "JWT token has expired. Please refresh your authentication token."),
            q1, ev)
      else (.error (.http r), q1, ev)
    | _ => (.error e, q1, ev)

/-- Number of `main` events (transport calls issued with the original
request config). -/
def countMain (evs : List Event) : Nat :=
  (evs.filter fun e => match e with | .main _ => true | _ => false).length

/-! ## Refresh de-duplication (`tokenRefreshInProgress`)

`JwtAbapConnection.refreshToken()` guards the token-endpoint call with the
`tokenRefreshInProgress` flag: the flag check and the flag set run in one
synchronous block (no `await` between them, so under the single-threaded
JS event loop they are atomic), a caller that finds the flag set polls
until it clears and then returns without its own network call, and the
`finally` clause clears the flag.  `RefreshSys` is the induced interleaving
system for `n` concurrent callers of `refreshToken()` on one instance. -/

/-- Phase of one caller of `refreshToken()`: `ready` before the
synchronous flag check, `refreshing` between setting the flag and the
`finally` (the token-endpoint call is in flight), `waiting` inside the
poll loop, `done` after return. -/
inductive CallerPhase where
  | ready
  | refreshing
  | waiting
  | done
deriving DecidableEq, Repr

/-- Global state: the `tokenRefreshInProgress` flag, each caller's phase,
and the number of network calls made to the token endpoint. -/
structure RefreshSys (n : Nat) where
  flag : Bool
  phase : Fin n → CallerPhase
  tokenCalls : Nat

/-- Step labels of the refresh system. -/
inductive RLabel where
  | enterBusy
  | enterFree
  | finishRefresh
  | wake
deriving DecidableEq, Repr

/-- Interleaving semantics of `refreshToken()`: `enterFree` is the atomic
check-and-set followed by issuing the network call, `enterBusy` the check
that finds a refresh in flight and moves into the poll loop,
`finishRefresh` the `finally` clearing the flag, and `wake` a waiting
caller observing the cleared flag and returning without a network call. -/
inductive RStep {n : Nat} : RLabel → RefreshSys n → RefreshSys n → Prop
  | enterBusy (s : RefreshSys n) (i : Fin n) :
      s.phase i = .ready → s.flag = true →
      RStep .enterBusy s { s with phase := Function.update s.phase i .waiting }
  | enterFree (s : RefreshSys n) (i : Fin n) :
      s.phase i = .ready → s.flag = false →
      RStep .enterFree s
        { flag := true, phase := Function.update s.phase i .refreshing,
          tokenCalls := s.tokenCalls + 1 }
  | finishRefresh (s : RefreshSys n) (i : Fin n) :
      s.phase i = .refreshing →
      RStep .finishRefresh s
        { flag := false, phase := Function.update s.phase i .done,
          tokenCalls := s.tokenCalls }
  | wake (s : RefreshSys n) (i : Fin n) :
      s.phase i = .waiting → s.flag = false →
      RStep .wake s { s with phase := Function.update s.phase i .done }

/-- Initial state: flag clear, every caller about to invoke
`refreshToken()`, no token-endpoint calls yet. -/
def RefreshSys.init (n : Nat) : RefreshSys n :=
  ⟨false, fun _ => .ready, 0⟩

/-- Any step of the system. -/
def rAnyStep {n : Nat} (s t : RefreshSys n) : Prop :=
  ∃ l, RStep l s t

/-- A step during one expiry event: every label except the completion of
the in-flight refresh.  A trace of such steps covers all interleavings in
which the concurrent callers invoke `refreshToken()` before the first
refresh completes. -/
def rNoFinishStep {n : Nat} (s t : RefreshSys n) : Prop :=
  ∃ l, l ≠ RLabel.finishRefresh ∧ RStep l s t

/-- The last value written for key `k` in a list of entries (what a merge
of those entries leaves behind for `k`). -/
def lastVal : List (String × String) → String → Option String
  | [], _ => none
  | p :: t, k =>
    match lastVal t k with
    | some v => some v
    | none => if p.1 = k then some p.2 else none

/-! ## Concrete sample data and derived predicates used by the theorems below -/

/-- A sample basic-auth configuration. -/
def cfgBasicS : SapConfig :=
  ⟨"https://host", some "100", .basic, some "u", some "p", none, none, none, none, none⟩

/-- A sample JWT configuration with full refresh capability. -/
def cfgJwtS : SapConfig :=
  ⟨"https://host", none, .jwt, none, none, some "t0", some "r1", some "uaa", some "cid", some "sec"⟩

/-- The cookie-header rendering prescribed by the claim, written from the
claim's words: the final map state joined as `name=value` pairs with
`"; "` (to be compared against `renderCookies`, which is the rendering the
source actually performs). -/
def claimCookieJoin (store : List (String × String)) : String :=
  joinWith "; " (store.map fun p => p.1 ++ "=" ++ p.2)

/-- Every key in the cookie map is non-empty (guaranteed by the
`trimmedName` guard in `ingestEntry`). -/
def keysNonempty (store : List (String × String)) : Prop :=
  ∀ p ∈ store, p.1 ≠ ""

/-- The invariant relating the raw cookie string to the cookie map. -/
def cookieCoherent (c : Conn) : Prop :=
  c.cookies = (if c.cookieStore.isEmpty then none else some (renderCookies c.cookieStore)) ∧
  keysNonempty c.cookieStore

/-- A refresh-oracle that returns a fresh access token and a fresh
refresh token. -/
def refreshWireNew : Nat → RefreshWire := fun _ => .ok (some "a2") (some "r2")

/-- A refresh-oracle whose token response carries a fresh access token
but no new refresh token. -/
def refreshWireKeep : Nat → RefreshWire := fun _ => .ok (some "a2") none

/-- A JWT connection run state with an empty session. -/
def qJwtS : RunS := ⟨⟨none, none, [], cfgJwtS⟩, 0, 0, 0⟩

/-- A transport oracle whose first call yields a CSRF token and whose
later calls succeed. -/
def oracleCsrfW : Nat → ReqOutcome
  | 0 => .ok ⟨200, "", some ["SAP_SESSIONID=zz"], some "newtok"⟩
  | _ => .ok ⟨200, "done", none, none⟩

/-- A basic-auth run state with an empty session. -/
def qBasicS : RunS := ⟨⟨none, none, [], cfgBasicS⟩, 0, 0, 0⟩

/-- JS `String.prototype.toLowerCase` (ASCII range). -/
def jsToLower (s : String) : String :=
  String.mk (s.toList.map Char.toLower)

/-- Case-insensitive substring matching — written from the claim's words,
which assert the permission markers are matched as case-insensitive
substrings (to be compared with `isPermissionText`, the case-sensitive
check the source performs). -/
def claimInsensitiveContains (hay needle : String) : Bool :=
  strContains (jsToLower hay) (jsToLower needle)

/-- A GET request descriptor. -/
def optsGetS : ReqOptions := ⟨"/e", "GET", none, []⟩

/-- A 403 whose body carries a lower-cased permission marker, followed by
a successful CSRF fetch and a successful replay. -/
def oracleNoAuthLower : Nat → ReqOutcome
  | 0 => .httpErr ⟨403, "no authorization", none, none⟩
  | 1 => .ok ⟨200, "", none, some "tok"⟩
  | _ => .ok ⟨200, "ok", none, none⟩

/-- The same scenario with the marker in the source's exact case. -/
def oracleNoAuthExact : Nat → ReqOutcome
  | 0 => .httpErr ⟨403, "No authorization", none, none⟩
  | 1 => .ok ⟨200, "", none, some "tok"⟩
  | _ => .ok ⟨200, "ok", none, none⟩

/-- The result a transport outcome of the main request becomes. -/
def mainResult : ReqOutcome → Except AbapError Resp
  | .ok r => .ok r
  | .httpErr r => .error (.http r)
  | .netErr m => .error (.net m)

/-- An oracle whose original request fails 401, whose reconnect CSRF
fetch succeeds, and whose replay fails 403 again. -/
def oracleExpiredTwice : Nat → ReqOutcome
  | 0 => .httpErr ⟨401, "Session expired", none, none⟩
  | 1 => .ok ⟨200, "", none, some "tok"⟩
  | _ => .httpErr ⟨403, "Session still expired", none, none⟩

/-- `cfgJwtS` after one refresh against `refreshWireNew`. -/
def cfgJwtS2 : SapConfig :=
  ⟨"https://host", none, .jwt, none, none, some "a2", some "r2", some "uaa",
    some "cid", some "sec"⟩

/-- Mutual-exclusion invariant of the refresh system: when the flag is
clear no refresh is in flight, and at most one caller is ever between
setting the flag and the `finally`. -/
def MutexInv {n : Nat} (s : RefreshSys n) : Prop :=
  (s.flag = false → ∀ i, s.phase i ≠ CallerPhase.refreshing) ∧
  (∀ i j, s.phase i = CallerPhase.refreshing →
    s.phase j = CallerPhase.refreshing → i = j)

/-- De-duplication invariant along one expiry event (no refresh has
completed yet): either no token-endpoint call has been made and the flag
is clear, or exactly one has been made and the flag is set. -/
def DedupInv {n : Nat} (s : RefreshSys n) : Prop :=
  (s.tokenCalls = 0 ∧ s.flag = false) ∨ (s.tokenCalls = 1 ∧ s.flag = true)

/-- The state after one caller (of two) atomically claims the flag and
issues the token-endpoint call. -/
def sysW : RefreshSys 2 :=
  ⟨true, Function.update (RefreshSys.init 2).phase 0 CallerPhase.refreshing, 1⟩

/-! ## Lemmas about stores and header assembly -/

theorem storeGet_storeSet (st : List (String × String)) (k v k' : String) :
    storeGet (storeSet st k v) k' = if k = k' then some v else storeGet st k' := by
  induction st with
  | nil => by_cases h : k = k' <;> simp [storeSet, storeGet, h]
  | cons p rest ih =>
    by_cases h1 : p.1 = k
    · by_cases h2 : k = k'
      · subst h2
        simp [storeSet, storeGet, h1]
      · have h3 : ¬(p.1 = k') := by rw [h1]; exact h2
        simp [storeSet, storeGet, h1, h2, h3]
    · by_cases h2 : p.1 = k'
      · have h3 : ¬(k = k') := fun he => h1 (by rw [he, ← h2])
        simp [storeSet, storeGet, h1, h2, h3, Ne.symm h3]
      · simp [storeSet, storeGet, h1, h2, ih]

theorem storeGet_mergeHeaders (hs : List (String × String))
    (h : List (String × String)) (k : String) :
    storeGet (mergeHeaders h hs) k =
      match lastVal hs k with
      | some v => some v
      | none => storeGet h k := by
  induction hs generalizing h with
  | nil => simp [mergeHeaders, lastVal]
  | cons p t ih =>
    have hstep : mergeHeaders h (p :: t) = mergeHeaders (storeSet h p.1 p.2) t := by
      simp [mergeHeaders]
    rw [hstep, ih]
    cases hlv : lastVal t k with
    | some v => simp [lastVal, hlv]
    | none =>
      simp only [lastVal, hlv, storeGet_storeSet]
      by_cases hp : p.1 = k <;> simp [hp]

theorem lastVal_getAuthHeaders (cfg : SapConfig) (k : String)
    (h1 : k ≠ "X-SAP-Client") (h2 : k ≠ "Authorization") :
    lastVal (getAuthHeaders cfg) k = none := by
  unfold getAuthHeaders
  by_cases hc : jsTruthy cfg.client <;>
    by_cases ha : buildAuthorizationHeader cfg ≠ "" <;>
      simp [hc, ha, lastVal, storeSet, Ne.symm h1, Ne.symm h2]

theorem storeGet_buildBaseHeaders (cfg : SapConfig) (sid : Option String)
    (mode : SessionMode) (reqId : String) (opts : ReqOptions) (k : String)
    (h1 : k ≠ "Accept") (h2 : k ≠ "sap-adt-connection-id")
    (h3 : k ≠ "x-sap-adt-sessiontype") (h4 : k ≠ "sap-adt-request-id")
    (h5 : k ≠ "X-sap-adt-profiling") (h6 : k ≠ "X-SAP-Client")
    (h7 : k ≠ "Authorization") :
    storeGet (buildBaseHeaders cfg sid mode reqId opts) k =
      lastVal opts.headers k := by
  by_cases hacc : jsTruthy (storeGet opts.headers "Accept") <;>
    by_cases hsid : jsTruthy sid <;>
      by_cases hm : mode = SessionMode.stateful <;>
        simp [buildBaseHeaders, hacc, hsid, hm, storeGet_mergeHeaders,
          lastVal_getAuthHeaders cfg k h6 h7, storeGet_storeSet, storeGet,
          Ne.symm h1, Ne.symm h2, Ne.symm h3, Ne.symm h4, Ne.symm h5] <;>
        cases lastVal opts.headers k <;> simp

theorem storeGet_contentTypeStep (nm url : String) (data : Option String)
    (h : List (String × String)) (k : String)
    (h1 : k ≠ "Content-Type") (h2 : k ≠ "Accept") :
    storeGet (contentTypeStep nm url data h) k = storeGet h k := by
  unfold contentTypeStep
  split_ifs <;> simp [storeGet_storeSet, Ne.symm h1, Ne.symm h2]

/-- Lookup of `x-csrf-token` in the assembled headers: the cached token
when the method is mutating and a token is cached, else whatever the
caller headers carried. -/
theorem build_csrf_lookup (c : Conn) (baseUrl : String) (sid : Option String)
    (mode : SessionMode) (reqId : String) (opts : ReqOptions) :
    storeGet (buildRequestHeaders c baseUrl sid mode reqId opts) "x-csrf-token" =
      if mutatingMethod (jsToUpper opts.method) && jsTruthy c.csrfToken then
        some (c.csrfToken.getD "")
      else lastVal opts.headers "x-csrf-token" := by
  unfold buildRequestHeaders
  rw [storeGet_contentTypeStep _ _ _ _ _ (by decide) (by decide)]
  by_cases hck : jsTruthy c.cookies <;>
    by_cases hcs : mutatingMethod (jsToUpper opts.method) && jsTruthy c.csrfToken <;>
      simp [hck, hcs, storeGet_storeSet,
        storeGet_buildBaseHeaders c.config sid mode reqId opts "x-csrf-token"
          (by decide) (by decide) (by decide) (by decide) (by decide) (by decide)
          (by decide)]

/-- Lookup of `Cookie` in the assembled headers: the raw cookie string
when it is truthy, else whatever the caller headers carried. -/
theorem build_cookie_lookup (c : Conn) (baseUrl : String) (sid : Option String)
    (mode : SessionMode) (reqId : String) (opts : ReqOptions) :
    storeGet (buildRequestHeaders c baseUrl sid mode reqId opts) "Cookie" =
      if jsTruthy c.cookies then some (c.cookies.getD "")
      else lastVal opts.headers "Cookie" := by
  unfold buildRequestHeaders
  rw [storeGet_contentTypeStep _ _ _ _ _ (by decide) (by decide)]
  by_cases hck : jsTruthy c.cookies <;>
    by_cases hcs : mutatingMethod (jsToUpper opts.method) && jsTruthy c.csrfToken <;>
      simp [hck, hcs, storeGet_storeSet,
        storeGet_buildBaseHeaders c.config sid mode reqId opts "Cookie"
          (by decide) (by decide) (by decide) (by decide) (by decide) (by decide)
          (by decide)]

/-! ## Sample configurations for concrete instantiations -/

/-! ## C7: CSRF token attachment policy -/

/-- C7: for every request built by the pipeline, the cached CSRF token is
never attached as the `x-csrf-token` header on a GET or HEAD request (the
lookup yields exactly what the caller headers carried, i.e. the pipeline
adds nothing), and is always attached on POST/PUT/DELETE requests once a
token is cached. -/
theorem csrf_attach_policy (c : Conn) (baseUrl : String) (sid : Option String)
    (mode : SessionMode) (reqId : String) :
    (∀ opts : ReqOptions,
      jsToUpper opts.method = "GET" ∨ jsToUpper opts.method = "HEAD" →
      storeGet (buildRequestHeaders c baseUrl sid mode reqId opts) "x-csrf-token" =
        lastVal opts.headers "x-csrf-token") ∧
    (∀ opts : ReqOptions,
      mutatingMethod (jsToUpper opts.method) = true → jsTruthy c.csrfToken = true →
      storeGet (buildRequestHeaders c baseUrl sid mode reqId opts) "x-csrf-token" =
        c.csrfToken) := by
  constructor
  · intro opts hm
    rw [build_csrf_lookup]
    have hmut : mutatingMethod (jsToUpper opts.method) = false := by
      rcases hm with h | h <;> rw [h] <;> decide
    simp [hmut]
  · intro opts hm ht
    rw [build_csrf_lookup]
    cases hc : c.csrfToken with
    | none => rw [hc] at ht; simp [jsTruthy] at ht
    | some t =>
      rw [hc] at ht
      simp [hm, ht, hc]

/-- Witness for C7 at concrete inputs: a GET with no caller
`x-csrf-token` header carries none, and a POST with a cached token carries
the cached token. -/
theorem csrf_attach_policy_witness :
    storeGet
        (buildRequestHeaders ⟨some "tok", some "a=1", [("a", "1")], cfgBasicS⟩
          "https://host" (some "sid") SessionMode.stateless "r"
          ⟨"/e", "get", none, []⟩) "x-csrf-token" = none ∧
    storeGet
        (buildRequestHeaders ⟨some "tok", some "a=1", [("a", "1")], cfgBasicS⟩
          "https://host" (some "sid") SessionMode.stateless "r"
          ⟨"/e", "post", some "d", []⟩) "x-csrf-token" = some "tok" := by
  constructor
  · have h := (csrf_attach_policy ⟨some "tok", some "a=1", [("a", "1")], cfgBasicS⟩
      "https://host" (some "sid") SessionMode.stateless "r").1
      ⟨"/e", "get", none, []⟩ (Or.inl (by decide))
    rw [h]; decide
  · have h := (csrf_attach_policy ⟨some "tok", some "a=1", [("a", "1")], cfgBasicS⟩
      "https://host" (some "sid") SessionMode.stateless "r").2
      ⟨"/e", "post", some "d", []⟩ (by decide) (by decide)
    rw [h]

/-! ## C9: session-snapshot round trip -/

/-- C9: for every connection whose session state is non-empty (i.e.
`getSessionState` yields a snapshot), feeding that snapshot to
`setSessionState` on a second, identically configured connection instance
makes that instance produce identical outbound `Cookie` and
`x-csrf-token` headers for an otherwise-identical request — even with the
second instance's own session id and per-request id. -/
theorem session_roundtrip (s t : Conn) (snap : SessionSnap)
    (hcfg : t.config = s.config) (hs : getSessionState s = some snap) :
    ∀ (baseUrl : String) (sid sid2 : Option String) (mode : SessionMode)
      (reqId reqId2 : String) (opts : ReqOptions),
      storeGet (buildRequestHeaders (setSessionState t snap) baseUrl sid2 mode reqId2 opts)
          "Cookie" =
        storeGet (buildRequestHeaders s baseUrl sid mode reqId opts) "Cookie" ∧
      storeGet (buildRequestHeaders (setSessionState t snap) baseUrl sid2 mode reqId2 opts)
          "x-csrf-token" =
        storeGet (buildRequestHeaders s baseUrl sid mode reqId opts) "x-csrf-token" := by
  intro baseUrl sid sid2 mode reqId reqId2 opts
  have hsnap : snap = ⟨s.cookies, s.csrfToken, s.cookieStore⟩ := by
    unfold getSessionState at hs
    by_cases h : (!jsTruthy s.cookies && !jsTruthy s.csrfToken) = true
    · rw [if_pos h] at hs; cases hs
    · rw [if_neg h] at hs
      exact (Option.some_injective _ hs).symm
  subst hsnap
  have hjn : jsTruthy none = false := rfl
  constructor
  · rw [build_cookie_lookup, build_cookie_lookup]
    simp only [setSessionState]
    by_cases hc : jsTruthy s.cookies <;> simp [hc, hjn]
  · rw [build_csrf_lookup, build_csrf_lookup]
    simp only [setSessionState]
    by_cases hc : jsTruthy s.csrfToken <;>
      by_cases hm : mutatingMethod (jsToUpper opts.method) <;> simp [hc, hm, hjn]

/-- Witness for C9 at concrete inputs. -/
theorem session_roundtrip_witness :
    storeGet
        (buildRequestHeaders
          (setSessionState ⟨none, none, [], cfgBasicS⟩ ⟨some "a=1", some "tok", [("a", "1")]⟩)
          "https://host" (some "s2") SessionMode.stateless "r2" ⟨"/e", "POST", some "d", []⟩)
        "Cookie" =
      storeGet
        (buildRequestHeaders ⟨some "tok", some "a=1", [("a", "1")], cfgBasicS⟩
          "https://host" (some "s1") SessionMode.stateless "r1" ⟨"/e", "POST", some "d", []⟩)
        "Cookie" ∧
    storeGet
        (buildRequestHeaders
          (setSessionState ⟨none, none, [], cfgBasicS⟩ ⟨some "a=1", some "tok", [("a", "1")]⟩)
          "https://host" (some "s2") SessionMode.stateless "r2" ⟨"/e", "POST", some "d", []⟩)
        "x-csrf-token" =
      storeGet
        (buildRequestHeaders ⟨some "tok", some "a=1", [("a", "1")], cfgBasicS⟩
          "https://host" (some "s1") SessionMode.stateless "r1" ⟨"/e", "POST", some "d", []⟩)
        "x-csrf-token" :=
  session_roundtrip ⟨some "tok", some "a=1", [("a", "1")], cfgBasicS⟩
    ⟨none, none, [], cfgBasicS⟩ ⟨some "a=1", some "tok", [("a", "1")]⟩
    rfl (by decide) "https://host" (some "s1") (some "s2") SessionMode.stateless "r1" "r2"
    ⟨"/e", "POST", some "d", []⟩

/-! ## C10: `getSessionState` nullability -/

/-- C10: `getSessionState()` returns `null` exactly when both the raw
cookie string and the CSRF token are null (under the invariant —
maintained by every operation of the core — that neither field ever holds
the empty string); and after `setSessionState` with a snapshot whose
cookies and CSRF token are null, `getSessionState()` returns `null` no
matter how large the snapshot's cookie map was, so that map is not
observable through the snapshot interface. -/
theorem getSessionState_null_iff (s : Conn)
    (h1 : s.cookies ≠ some "") (h2 : s.csrfToken ≠ some "") :
    (getSessionState s = none ↔ s.cookies = none ∧ s.csrfToken = none) ∧
    (∀ store : List (String × String),
      getSessionState (setSessionState s ⟨none, none, store⟩) = none) := by
  constructor
  · rcases hc : s.cookies with _ | x <;> rcases ht : s.csrfToken with _ | y
    · simp [getSessionState, hc, ht, jsTruthy]
    · have hy : y ≠ "" := fun he => h2 (by rw [ht, he])
      simp [getSessionState, hc, ht, jsTruthy, hy]
    · have hx : x ≠ "" := fun he => h1 (by rw [hc, he])
      simp [getSessionState, hc, ht, jsTruthy, hx]
    · have hx : x ≠ "" := fun he => h1 (by rw [hc, he])
      simp [getSessionState, hc, ht, jsTruthy, hx]
  · intro store
    simp [setSessionState, getSessionState, jsTruthy]

/-- Witness for C10 at a concrete input with a non-empty session. -/
theorem getSessionState_null_iff_witness :
    (getSessionState ⟨some "tok", some "a=1", [("a", "1")], cfgBasicS⟩ = none ↔
      (⟨some "tok", some "a=1", [("a", "1")], cfgBasicS⟩ : Conn).cookies = none ∧
      (⟨some "tok", some "a=1", [("a", "1")], cfgBasicS⟩ : Conn).csrfToken = none) ∧
    (∀ store : List (String × String),
      getSessionState
        (setSessionState ⟨some "tok", some "a=1", [("a", "1")], cfgBasicS⟩
          ⟨none, none, store⟩) = none) :=
  getSessionState_null_iff ⟨some "tok", some "a=1", [("a", "1")], cfgBasicS⟩
    (by decide) (by decide)

/-! ## C6: cookie jar rendering -/

theorem storeSet_ne_nil (st : List (String × String)) (k v : String) :
    storeSet st k v ≠ [] := by
  cases st with
  | nil => simp [storeSet]
  | cons p rest =>
    unfold storeSet
    by_cases h : p.1 = k <;> simp [h]

theorem mem_storeSet (st : List (String × String)) (k v : String)
    (p : String × String) (hp : p ∈ storeSet st k v) : p ∈ st ∨ p = (k, v) := by
  induction st with
  | nil =>
    simp [storeSet] at hp
    right; exact hp
  | cons q rest ih =>
    unfold storeSet at hp
    by_cases h : q.1 = k
    · rw [if_pos h] at hp
      rcases List.mem_cons.mp hp with h1 | h1
      · right; exact h1
      · left; exact List.mem_cons_of_mem _ h1
    · rw [if_neg h] at hp
      rcases List.mem_cons.mp hp with h1 | h1
      · left; simp [h1]
      · rcases ih h1 with h2 | h2
        · left; exact List.mem_cons_of_mem _ h2
        · right; exact h2

theorem keysNonempty_ingestEntry (st : List (String × String)) (e : String)
    (h : keysNonempty st) : keysNonempty (ingestEntry st e) := by
  unfold ingestEntry
  dsimp only
  split_ifs with h1 h2 h3
  · exact h
  · exact h
  · exact h
  · intro p hp
    rcases mem_storeSet _ _ _ _ hp with hmem | heq
    · exact h p hmem
    · rw [heq]; exact h3

theorem keysNonempty_ingestEntries (entries : List String)
    (st : List (String × String)) (h : keysNonempty st) :
    keysNonempty (ingestEntries st entries) := by
  induction entries generalizing st with
  | nil => exact h
  | cons e t ih => exact ih _ (keysNonempty_ingestEntry st e h)

theorem ingestEntry_ne_nil (st : List (String × String)) (e : String)
    (h : st ≠ []) : ingestEntry st e ≠ [] := by
  unfold ingestEntry
  dsimp only
  split_ifs <;> first | exact h | exact storeSet_ne_nil _ _ _

theorem ingestEntries_eq_nil (entries : List String)
    (st : List (String × String)) (h : ingestEntries st entries = []) :
    st = [] := by
  induction entries generalizing st with
  | nil => exact h
  | cons e t ih =>
    by_cases hst : st = []
    · exact hst
    · exact absurd (ih _ h) (ingestEntry_ne_nil st e hst)

theorem append_ne_empty_of_left (a b : String) (ha : a ≠ "") : a ++ b ≠ "" := by
  intro hab
  apply ha
  rw [String.ext_iff] at hab ⊢
  rw [String.data_append] at hab
  rcases List.append_eq_nil.mp hab with ⟨h1, _⟩
  exact h1

theorem renderCookies_ne_empty (store : List (String × String))
    (hne : store ≠ []) (hk : keysNonempty store) : renderCookies store ≠ "" := by
  cases store with
  | nil => exact absurd rfl hne
  | cons p rest =>
    have hp1 : p.1 ≠ "" := hk p (List.mem_cons_self p rest)
    have hpiece : (if p.2 = "" then p.1 else p.1 ++ "=" ++ p.2) ≠ "" := by
      by_cases h : p.2 = ""
      · simp [h, hp1]
      · simp only [if_neg h]
        exact append_ne_empty_of_left _ _ (append_ne_empty_of_left _ _ hp1)
    unfold renderCookies
    cases rest with
    | nil => simpa [joinWith] using hpiece
    | cons q t =>
      simp only [List.map, joinWith]
      exact append_ne_empty_of_left _ _ (append_ne_empty_of_left _ _ hpiece)

theorem cookieCoherent_update (c : Conn) (sc : Option (List String))
    (h : cookieCoherent c) : cookieCoherent (updateCookiesFromResponse c sc) := by
  obtain ⟨h1, h2⟩ := h
  cases sc with
  | none => exact ⟨h1, h2⟩
  | some entries =>
    unfold updateCookiesFromResponse
    simp only
    by_cases hemp : (ingestEntries c.cookieStore entries).isEmpty
    · rw [if_pos hemp]
      have hnil : ingestEntries c.cookieStore entries = [] :=
        List.isEmpty_iff.mp hemp
      have hstnil : c.cookieStore = [] := ingestEntries_eq_nil _ _ hnil
      refine ⟨?_, ?_⟩
      · simp only [hemp]
        rw [h1, hstnil]
        simp
      · intro p hp
        rw [hnil] at hp
        cases hp
    · rw [if_neg hemp]
      have hnil : ingestEntries c.cookieStore entries ≠ [] := by
        intro hh
        rw [hh] at hemp
        exact hemp rfl
      have hkeys : keysNonempty (ingestEntries c.cookieStore entries) :=
        keysNonempty_ingestEntries _ _ h2
      have hcomb : renderCookies (ingestEntries c.cookieStore entries) ≠ "" :=
        renderCookies_ne_empty _ hnil hkeys
      rw [if_neg hcomb]
      refine ⟨?_, hkeys⟩
      simp only [hemp]
      simp

/-- C6 counterexample: a `Set-Cookie` entry `a=` (empty value) makes the
source render the bare name `a`, while the claim's `name=value` join
renders `a=`; the raw header therefore differs from the claim's join. -/
theorem cookie_render_claim_cex :
    (updateCookiesFromResponse ⟨none, none, [], cfgBasicS⟩ (some ["a="])).cookies =
        some "a" ∧
    claimCookieJoin
        (updateCookiesFromResponse ⟨none, none, [], cfgBasicS⟩ (some ["a="])).cookieStore =
      "a=" ∧
    ("a" : String) ≠ "a=" := by
  refine ⟨by decide, by decide, by decide⟩

/-- C6 (amended): each `Set-Cookie` entry is parsed by taking the
substring before the first `;`, splitting on the first `=`, trimming, and
upserting with last-write-wins (this is `ingestEntry` by construction);
and for every sequence of responses ingested from the initial (empty) jar,
the raw `Cookie` header string is absent while the map is empty and
otherwise equals the join of the final map state in map insertion order,
where a pair renders as `name=value` except that a pair with an empty
value renders as the bare `name`. -/
theorem cookie_render_invariant (cfg : SapConfig)
    (resps : List (Option (List String))) :
    (resps.foldl updateCookiesFromResponse ⟨none, none, [], cfg⟩).cookies =
      (if (resps.foldl updateCookiesFromResponse ⟨none, none, [], cfg⟩).cookieStore.isEmpty
       then none
       else some (renderCookies
         (resps.foldl updateCookiesFromResponse ⟨none, none, [], cfg⟩).cookieStore)) := by
  have hinit : cookieCoherent ⟨none, none, [], cfg⟩ := by
    refine ⟨by simp, ?_⟩
    intro p hp
    cases hp
  have hfold : ∀ (rs : List (Option (List String))) (c : Conn), cookieCoherent c →
      cookieCoherent (rs.foldl updateCookiesFromResponse c) := by
    intro rs
    induction rs with
    | nil => intro c hc; exact hc
    | cons r t ih =>
      intro c hc
      exact ih _ (cookieCoherent_update c r hc)
  exact (hfold resps _ hinit).1

/-! ## Configuration preservation through the base pipeline -/

theorem config_updateCookies (c : Conn) (sc : Option (List String)) :
    (updateCookiesFromResponse c sc).config = c.config := by
  unfold updateCookiesFromResponse
  cases sc with
  | none => rfl
  | some entries =>
    dsimp only
    split_ifs <;> rfl

theorem config_ingestResp (q : RunS) (r : Resp) :
    (ingestResp q r).conn.config = q.conn.config := by
  simp [ingestResp, config_updateCookies]

theorem config_fetchCsrfAux (oracle : Nat → ReqOutcome) (rc : Nat) :
    ∀ (n : Nat) (q : RunS),
      ((fetchCsrfAux oracle rc n q).2).conn.config = q.conn.config := by
  intro n
  induction n with
  | zero => intro q; rfl
  | succ m ih =>
    intro q
    unfold fetchCsrfAux
    cases oracle q.i with
    | ok r =>
      dsimp only
      split_ifs <;> simp [config_ingestResp, ih]
    | httpErr r =>
      dsimp only
      split_ifs <;> simp [config_ingestResp, ih]
    | netErr m2 =>
      dsimp only
      split_ifs <;> simp [ih]

theorem config_fetchCsrfR (oracle : Nat → ReqOutcome) (rc rd : Nat) (q : RunS) :
    ((fetchCsrfR oracle rc rd q).2.1).conn.config = q.conn.config := by
  unfold fetchCsrfR
  dsimp only
  exact config_fetchCsrfAux oracle rc (rc + 1) q

theorem config_replayOnce (oracle : Nat → ReqOutcome) (q : RunS) :
    ((replayOnce oracle q).2.1).conn.config = q.conn.config := by
  unfold replayOnce
  cases oracle q.i <;> simp [config_ingestResp]

theorem config_basic401GetPath (oracle : Nat → ReqOutcome) (q : RunS) (e : ReqOutcome) :
    ((basic401GetPath oracle q e).2.1).conn.config = q.conn.config := by
  unfold basic401GetPath
  by_cases h1 : jsTruthy q.conn.cookies
  · simp only [h1]
    simpa using config_replayOnce oracle q
  · simp only [h1]
    rcases hf : fetchCsrfR oracle 3 1000 q with ⟨res, q1, ev⟩
    try simp only [hf]
    have hc1 : q1.conn.config = q.conn.config := by
      have h := config_fetchCsrfR oracle 3 1000 q
      rw [hf] at h
      exact h
    cases res with
    | error err => simpa using hc1
    | ok t =>
      dsimp only
      by_cases h2 : jsTruthy q1.conn.cookies
      · simp only [h2]
        rcases hr : replayOnce oracle { q1 with conn := { q1.conn with csrfToken := some t } }
          with ⟨res2, q2, ev2⟩
        try simp only [hr]
        have hc2 : q2.conn.config = q1.conn.config := by
          have h := config_replayOnce oracle
            { q1 with conn := { q1.conn with csrfToken := some t } }
          rw [hr] at h
          simpa using h
        simpa [hc2] using hc1
      · simpa [h2] using hc1

theorem config_recoverFromError (oracle : Nat → ReqOutcome) (nm : String)
    (q : RunS) (e : ReqOutcome) :
    ((recoverFromError oracle nm q e).2.1).conn.config = q.conn.config := by
  unfold recoverFromError
  split_ifs with h1 h2
  · rcases hf : fetchCsrfR oracle 5 2000 q with ⟨res, q1, ev⟩
    try simp only [hf]
    have hc1 : q1.conn.config = q.conn.config := by
      have h := config_fetchCsrfR oracle 5 2000 q
      rw [hf] at h
      exact h
    cases res with
    | error err => simpa using hc1
    | ok t =>
      dsimp only
      rcases hr : replayOnce oracle { q1 with conn := { q1.conn with csrfToken := some t } }
        with ⟨res2, q2, ev2⟩
      try simp only [hr]
      have hc2 : q2.conn.config = q1.conn.config := by
        have h := config_replayOnce oracle
          { q1 with conn := { q1.conn with csrfToken := some t } }
        rw [hr] at h
        simpa using h
      simpa [hc2] using hc1
  · exact config_basic401GetPath oracle q e
  · rfl

theorem config_mainAndRecover (oracle : Nat → ReqOutcome) (nm : String) (q : RunS) :
    ((mainAndRecover oracle nm q).2.1).conn.config = q.conn.config := by
  unfold mainAndRecover
  cases ho : oracle q.i with
  | ok r => simp [config_ingestResp]
  | httpErr r =>
    dsimp only
    rcases hr : recoverFromError oracle nm (ingestResp { q with i := q.i + 1 } r) (.httpErr r)
      with ⟨res, q2, ev⟩
    try simp only [hr]
    have hc : q2.conn.config = q.conn.config := by
      have h := config_recoverFromError oracle nm
        (ingestResp { q with i := q.i + 1 } r) (.httpErr r)
      rw [hr] at h
      simpa [config_ingestResp] using h
    simpa using hc
  | netErr m =>
    dsimp only
    rcases hr : recoverFromError oracle nm { q with i := q.i + 1 } (.netErr m)
      with ⟨res, q2, ev⟩
    try simp only [hr]
    have hc : q2.conn.config = q.conn.config := by
      have h := config_recoverFromError oracle nm { q with i := q.i + 1 } (.netErr m)
      rw [hr] at h
      simpa using h
    simpa using hc

theorem config_upfrontCsrfStep (oracle : Nat → ReqOutcome) (nm : String) (q : RunS) :
    ((upfrontCsrfStep oracle nm q).1).conn.config = q.conn.config := by
  unfold upfrontCsrfStep
  split_ifs with h1
  · rcases hf : fetchCsrfR oracle 3 1000 q with ⟨res, q1, ev⟩
    try simp only [hf]
    have hc1 : q1.conn.config = q.conn.config := by
      have h := config_fetchCsrfR oracle 3 1000 q
      rw [hf] at h
      exact h
    cases res with
    | ok t => simpa using hc1
    | error err => simpa using hc1
  · rfl

theorem config_baseRun (oracle : Nat → ReqOutcome) (opts : ReqOptions) (q : RunS) :
    ((baseRun oracle opts q).2.1).conn.config = q.conn.config := by
  unfold baseRun
  dsimp only
  rcases hu : upfrontCsrfStep oracle (jsToUpper opts.method) q with ⟨q1, ev1⟩
  simp only [hu]
  have hc1 : q1.conn.config = q.conn.config := by
    have h := config_upfrontCsrfStep oracle (jsToUpper opts.method) q
    rw [hu] at h
    exact h
  rcases hm : mainAndRecover oracle (jsToUpper opts.method) q1 with ⟨res, q2, ev2⟩
  simp only [hm]
  have hc2 : q2.conn.config = q1.conn.config := by
    have h := config_mainAndRecover oracle (jsToUpper opts.method) q1
    rw [hm] at h
    exact h
  simpa [hc2] using hc1

/-- The eight configuration fields `refreshToken()` never writes are
preserved by `refreshTokenM`, whatever the outcome. -/
theorem refreshTokenM_config_fields (refreshO : Nat → RefreshWire) (q : RunS) :
    ((refreshTokenM refreshO q).2.1).conn.config.url = q.conn.config.url ∧
    ((refreshTokenM refreshO q).2.1).conn.config.client = q.conn.config.client ∧
    ((refreshTokenM refreshO q).2.1).conn.config.authType = q.conn.config.authType ∧
    ((refreshTokenM refreshO q).2.1).conn.config.username = q.conn.config.username ∧
    ((refreshTokenM refreshO q).2.1).conn.config.password = q.conn.config.password ∧
    ((refreshTokenM refreshO q).2.1).conn.config.uaaUrl = q.conn.config.uaaUrl ∧
    ((refreshTokenM refreshO q).2.1).conn.config.uaaClientId = q.conn.config.uaaClientId ∧
    ((refreshTokenM refreshO q).2.1).conn.config.uaaClientSecret =
      q.conn.config.uaaClientSecret := by
  unfold refreshTokenM
  dsimp only
  split_ifs with h1 h2
  · simp
  · simp
  · cases hw : refreshJwtToken (q.conn.config.refreshToken.getD "") (refreshO q.ri) with
    | error m => simp
    | ok p =>
      rcases p with ⟨access, newRefresh⟩
      dsimp only
      split_ifs with h3 <;> simp [resetConn]

/-! ## C8: configuration mutation policy -/

/-- C8 counterexample: a refresh whose token response carries a new
refresh token replaces the config's refresh-token field in place — the
claim says the refresh token remains unchanged. -/
theorem config_refreshToken_mutated_cex :
    cfgJwtS.refreshToken = some "r1" ∧
    ((refreshTokenM refreshWireNew qJwtS).2.1).conn.config.refreshToken = some "r2" ∧
    (some "r2" : Option String) ≠ some "r1" := by
  refine ⟨by decide, by decide, by decide⟩

/-- C8 (amended): the connection configuration is never mutated by the
cookie jar, the session-snapshot operations, `reset()`, or the base
request pipeline; a JWT refresh replaces the bearer-token field in place
and — exactly when the token response carries a truthy new refresh
token — also replaces the refresh-token field; all other configuration
fields survive every refresh outcome unchanged. -/
theorem config_mutation_policy :
    (∀ (c : Conn) (sc : Option (List String)),
      (updateCookiesFromResponse c sc).config = c.config) ∧
    (∀ (c : Conn) (st : SessionSnap), (setSessionState c st).config = c.config) ∧
    (∀ c : Conn, (resetConn c).config = c.config) ∧
    (∀ (oracle : Nat → ReqOutcome) (opts : ReqOptions) (q : RunS),
      ((baseRun oracle opts q).2.1).conn.config = q.conn.config) ∧
    (∀ (refreshO : Nat → RefreshWire) (q : RunS),
      ((refreshTokenM refreshO q).2.1).conn.config.url = q.conn.config.url ∧
      ((refreshTokenM refreshO q).2.1).conn.config.client = q.conn.config.client ∧
      ((refreshTokenM refreshO q).2.1).conn.config.authType = q.conn.config.authType ∧
      ((refreshTokenM refreshO q).2.1).conn.config.username = q.conn.config.username ∧
      ((refreshTokenM refreshO q).2.1).conn.config.password = q.conn.config.password ∧
      ((refreshTokenM refreshO q).2.1).conn.config.uaaUrl = q.conn.config.uaaUrl ∧
      ((refreshTokenM refreshO q).2.1).conn.config.uaaClientId =
        q.conn.config.uaaClientId ∧
      ((refreshTokenM refreshO q).2.1).conn.config.uaaClientSecret =
        q.conn.config.uaaClientSecret) ∧
    (∀ (refreshO : Nat → RefreshWire) (q : RunS) (a rt : Option String),
      refreshO q.ri = .ok a rt → jsTruthy a = true →
      canRefreshToken q.conn.config = true →
      (refreshTokenM refreshO q).1 = .ok () ∧
      ((refreshTokenM refreshO q).2.1).conn.config.jwtToken = a ∧
      ((refreshTokenM refreshO q).2.1).conn.config.refreshToken =
        (if jsTruthy rt then rt else q.conn.config.refreshToken)) := by
  refine ⟨config_updateCookies, fun c st => rfl, fun c => rfl, config_baseRun,
    refreshTokenM_config_fields, ?_⟩
  intro refreshO q a rt hw ha hcan
  have hA : jsTruthy q.conn.config.refreshToken = true := by
    revert hcan
    unfold canRefreshToken
    cases jsTruthy q.conn.config.refreshToken <;> simp
  have hB : (jsTruthy q.conn.config.uaaUrl && jsTruthy q.conn.config.uaaClientId &&
      jsTruthy q.conn.config.uaaClientSecret) = true := by
    revert hcan
    unfold canRefreshToken
    cases jsTruthy q.conn.config.refreshToken <;> simp
  unfold refreshTokenM
  simp only [hA, hB, hw, Bool.not_true]
  cases a with
  | none => simp [jsTruthy] at ha
  | some x =>
    have hx : x ≠ "" := by simpa [jsTruthy] using ha
    rcases holdv : q.conn.config.refreshToken with _ | y
    · rw [holdv] at hA
      simp [jsTruthy] at hA
    · have hy : y ≠ "" := by
        rw [holdv] at hA
        simpa [jsTruthy] using hA
      cases rt with
      | none => simp [refreshJwtToken, jsTruthy, hx, hy, holdv, resetConn]
      | some z =>
        by_cases hz : z = ""
        · subst hz
          simp [refreshJwtToken, jsTruthy, hx, hy, holdv, resetConn]
        · simp [refreshJwtToken, jsTruthy, hx, hz, holdv, resetConn]

/-- Witness for C8 at two concrete refreshes: a token response carrying a
new refresh token replaces both token fields, and one carrying none
replaces the bearer token while the refresh-token field keeps its old
value. -/
theorem config_mutation_policy_witness :
    (refreshTokenM refreshWireNew qJwtS).1 = .ok () ∧
    ((refreshTokenM refreshWireNew qJwtS).2.1).conn.config.jwtToken = some "a2" ∧
    ((refreshTokenM refreshWireNew qJwtS).2.1).conn.config.refreshToken = some "r2" ∧
    (refreshTokenM refreshWireKeep qJwtS).1 = .ok () ∧
    ((refreshTokenM refreshWireKeep qJwtS).2.1).conn.config.jwtToken = some "a2" ∧
    ((refreshTokenM refreshWireKeep qJwtS).2.1).conn.config.refreshToken = some "r1" := by
  have h1 := config_mutation_policy.2.2.2.2.2 refreshWireNew qJwtS (some "a2")
    (some "r2") rfl (by decide) (by decide)
  have h2 := config_mutation_policy.2.2.2.2.2 refreshWireKeep qJwtS (some "a2")
    none rfl (by decide) (by decide)
  refine ⟨h1.1, h1.2.1, ?_, h2.1, h2.2.1, ?_⟩
  · simpa [jsTruthy] using h1.2.2
  · simpa [qJwtS, cfgJwtS, jsTruthy] using h2.2.2

/-! ## C4: network errors are terminal -/

theorem shouldRetryCsrf_netErr (c : Conn) (msg : String) (cm : Option String) :
    shouldRetryCsrf c (.netErr msg) cm = false := by
  unfold shouldRetryCsrf
  dsimp only [responseTextOf, errStatusIs]
  by_cases h : c.config.authType = AuthType.jwt
  · simp [h]
  · simp only [h, if_neg]
    simp only [Bool.false_and, Bool.and_false, Bool.or_false, Bool.false_or]
    decide

theorem fetchCsrfAux_netErr (msg : String) (rc : Nat) :
    ∀ (n : Nat) (q : RunS), 0 < n →
      fetchCsrfAux (fun _ => .netErr msg) rc n q =
        (.error (.csrfFetchFailed (rc + 1) msg), { q with i := q.i + n }) := by
  intro n
  induction n with
  | zero => intro q h; exact absurd h (Nat.lt_irrefl 0)
  | succ m ih =>
    intro q h
    unfold fetchCsrfAux
    dsimp only
    by_cases hm : 0 < m
    · rw [if_pos hm, ih _ hm]
      have harith : q.i + 1 + m = q.i + (m + 1) := by omega
      simp [harith]
    · have hm0 : m = 0 := by omega
      subst hm0
      simp

theorem fetchCsrfR_netErr (msg : String) (rc rd : Nat) (q : RunS) :
    fetchCsrfR (fun _ => .netErr msg) rc rd q =
      (.error (.csrfFetchFailed (rc + 1) msg), { q with i := q.i + (rc + 1) },
        [.csrf rc rd]) := by
  unfold fetchCsrfR
  rw [fetchCsrfAux_netErr msg rc (rc + 1) q (by omega)]

theorem upfrontCsrfStep_netErr (msg : String) (nm : String) (q : RunS) :
    upfrontCsrfStep (fun _ => .netErr msg) nm q =
      if mutatingMethod nm && !jsTruthy q.conn.csrfToken then
        ({ q with i := q.i + 4 }, [.csrf 3 1000])
      else (q, []) := by
  unfold upfrontCsrfStep
  split_ifs with h
  · rw [fetchCsrfR_netErr]
  · rfl

theorem mainAndRecover_netErr (msg : String) (nm : String) (q : RunS) :
    mainAndRecover (fun _ => .netErr msg) nm q =
      (.error (.net msg), { q with i := q.i + 1 }, [.main (.netErr msg)]) := by
  unfold mainAndRecover
  dsimp only
  unfold recoverFromError
  rw [shouldRetryCsrf_netErr]
  simp [errStatusIs, outcomeToError]

theorem baseRun_netErr (msg : String) (opts : ReqOptions) (q : RunS) :
    baseRun (fun _ => .netErr msg) opts q =
      if mutatingMethod (jsToUpper opts.method) && !jsTruthy q.conn.csrfToken then
        (.error (.net msg), { q with i := q.i + 5 }, [.csrf 3 1000, .main (.netErr msg)])
      else
        (.error (.net msg), { q with i := q.i + 1 }, [.main (.netErr msg)]) := by
  unfold baseRun
  dsimp only
  rw [upfrontCsrfStep_netErr]
  split_ifs with h
  · rw [mainAndRecover_netErr]
    have harith : q.i + 4 + 1 = q.i + 5 := by omega
    simp [harith]
  · rw [mainAndRecover_netErr]
    simp

/-- C4: when every transport call fails at network level (no HTTP
response), the pipeline — base and JWT wrapper alike — performs no CSRF
retry and no 401 retry (exactly one transport call carries the original
request config, it is the last event of the run), ingests no cookies (the
ingest count and the whole cookie jar are untouched), and propagates the
failure immediately as the classified network error. -/
theorem network_error_no_retry (opts : ReqOptions) (q : RunS) (msg : String) :
    (baseRun (fun _ => .netErr msg) opts q).1 = .error (.net msg) ∧
    (baseRun (fun _ => .netErr msg) opts q).2.2 =
      (upfrontCsrfStep (fun _ => .netErr msg) (jsToUpper opts.method) q).2 ++
        [.main (.netErr msg)] ∧
    countMain (baseRun (fun _ => .netErr msg) opts q).2.2 = 1 ∧
    (baseRun (fun _ => .netErr msg) opts q).2.1.ing = q.ing ∧
    (baseRun (fun _ => .netErr msg) opts q).2.1.conn = q.conn ∧
    (∀ refreshO : Nat → RefreshWire,
      (jwtRun (fun _ => .netErr msg) refreshO opts q).1 = .error (.net msg)) := by
  have hbase := baseRun_netErr msg opts q
  have hup := upfrontCsrfStep_netErr msg (jsToUpper opts.method) q
  by_cases h : mutatingMethod (jsToUpper opts.method) && !jsTruthy q.conn.csrfToken
  · rw [if_pos h] at hbase
    rw [if_pos h] at hup
    refine ⟨by rw [hbase], by rw [hbase, hup]; rfl, by rw [hbase]; rfl,
      by rw [hbase], by rw [hbase], ?_⟩
    intro refreshO
    unfold jwtRun
    rw [hbase]
  · rw [if_neg h] at hbase
    rw [if_neg h] at hup
    refine ⟨by rw [hbase], by rw [hbase, hup]; rfl,
      by rw [hbase]; rfl, by rw [hbase], by rw [hbase], ?_⟩
    intro refreshO
    unfold jwtRun
    rw [hbase]

/-! ## C5: CSRF-invalid classification and retry behavior -/

/-- Events emitted by one `fetchCsrfToken` invocation: exactly the `csrf`
budget record. -/
theorem events_fetchCsrfR (oracle : Nat → ReqOutcome) (rc rd : Nat) (q : RunS) :
    (fetchCsrfR oracle rc rd q).2.2 = [.csrf rc rd] := by
  unfold fetchCsrfR
  rcases h : fetchCsrfAux oracle rc (rc + 1) q with ⟨res, q1⟩
  simp [h]

/-- C5: a failed request is classified CSRF-invalid exactly when the auth
scheme is not bearer/JWT and (a) status 403 with a body mentioning `CSRF`,
or (b) a body mentioning `CSRF token`, or (c) status 401 on a mutating
request config with no CSRF token cached; never for an error without an
HTTP response and never under JWT.  On a CSRF-invalid classification the
pipeline re-fetches the token with budget (5, 2000) as its first action,
replays the request at most once — exactly once when the fetch succeeds,
as the final event — and returns that replay's outcome without further
branching; the opportunistic upfront fetch instead uses budget (3, 1000). -/
theorem csrf_retry_classification :
    (∀ (c : Conn) (r : Resp) (cm : Option String),
      shouldRetryCsrf c (.httpErr r) cm = true ↔
        (c.config.authType ≠ AuthType.jwt ∧
          ((r.status = 403 ∧ strContains r.body "CSRF" = true) ∨
           strContains r.body "CSRF token" = true ∨
           ((cm.map jsToUpper).elim false mutatingMethod = true ∧
            jsTruthy c.csrfToken = false ∧ r.status = 401)))) ∧
    (∀ (c : Conn) (msg : String) (cm : Option String),
      shouldRetryCsrf c (.netErr msg) cm = false) ∧
    (∀ (c : Conn) (e : ReqOutcome) (cm : Option String),
      c.config.authType = AuthType.jwt → shouldRetryCsrf c e cm = false) ∧
    (∀ (oracle : Nat → ReqOutcome) (nm : String) (q : RunS) (e : ReqOutcome),
      shouldRetryCsrf q.conn e (some nm) = true →
      (recoverFromError oracle nm q e).2.2.head? = some (.csrf 5 2000) ∧
      countMain (recoverFromError oracle nm q e).2.2 ≤ 1) ∧
    (∀ (oracle : Nat → ReqOutcome) (nm : String) (q : RunS) (e : ReqOutcome)
      (t : String) (q1 : RunS),
      shouldRetryCsrf q.conn e (some nm) = true →
      fetchCsrfAux oracle 5 6 q = (.ok t, q1) →
      (recoverFromError oracle nm q e).2.2 = [.csrf 5 2000, .main (oracle q1.i)] ∧
      (recoverFromError oracle nm q e).1 =
        (match oracle q1.i with
         | .ok r2 => .ok r2
         | .httpErr r2 => .error (.http r2)
         | .netErr m2 => .error (.net m2))) ∧
    (∀ (oracle : Nat → ReqOutcome) (nm : String) (q : RunS),
      (upfrontCsrfStep oracle nm q).2 =
        (if mutatingMethod nm && !jsTruthy q.conn.csrfToken then [Event.csrf 3 1000]
         else [])) := by
  refine ⟨?_, shouldRetryCsrf_netErr, ?_, ?_, ?_, ?_⟩
  · intro c r cm
    unfold shouldRetryCsrf
    dsimp only [responseTextOf, errStatusIs]
    by_cases h : c.config.authType = AuthType.jwt
    · simp [h]
    · simp only [h, if_neg, if_false]
      simp only [Bool.or_eq_true, Bool.and_eq_true, decide_eq_true_eq,
        Bool.not_eq_true']
      constructor
      · intro hx
        exact ⟨h, by tauto⟩
      · intro hx
        tauto
  · intro c e cm h
    unfold shouldRetryCsrf
    cases e <;> simp [h]
  · intro oracle nm q e h
    unfold recoverFromError
    rw [if_pos h]
    unfold fetchCsrfR
    rcases hf : fetchCsrfAux oracle 5 (5 + 1) q with ⟨res, q1⟩
    cases res with
    | error err => simp [countMain]
    | ok t =>
      dsimp only
      unfold replayOnce
      cases oracle q1.i <;> simp [countMain, List.filter]
  · intro oracle nm q e t q1 h hf
    unfold recoverFromError
    rw [if_pos h]
    unfold fetchCsrfR
    rw [show (5 : Nat) + 1 = 6 from rfl, hf]
    dsimp only
    unfold replayOnce
    cases ho : oracle q1.i <;> simp [ho]
  · intro oracle nm q
    unfold upfrontCsrfStep
    split_ifs with h
    · rcases hf : fetchCsrfR oracle 3 1000 q with ⟨res, q1, ev⟩
      have hev : ev = [.csrf 3 1000] := by
        have h2 := events_fetchCsrfR oracle 3 1000 q
        rw [hf] at h2
        exact h2
      cases res <;> simp [hev]
    · rfl

/-- Witness for C5: a 403 `CSRF token` error under basic auth is
classified CSRF-invalid, the recovery refetches with budget (5, 2000) and
replays exactly once, returning the replay's success. -/
theorem csrf_retry_classification_witness :
    (recoverFromError oracleCsrfW "GET" qBasicS
        (.httpErr ⟨403, "CSRF token validation failed", none, none⟩)).2.2.head? =
      some (.csrf 5 2000) ∧
    countMain (recoverFromError oracleCsrfW "GET" qBasicS
        (.httpErr ⟨403, "CSRF token validation failed", none, none⟩)).2.2 ≤ 1 ∧
    (recoverFromError oracleCsrfW "GET" qBasicS
        (.httpErr ⟨403, "CSRF token validation failed", none, none⟩)).2.2 =
      [.csrf 5 2000, .main (.ok ⟨200, "done", none, none⟩)] ∧
    (recoverFromError oracleCsrfW "GET" qBasicS
        (.httpErr ⟨403, "CSRF token validation failed", none, none⟩)).1 =
      .ok ⟨200, "done", none, none⟩ := by
  have h4 := csrf_retry_classification.2.2.2.1 oracleCsrfW "GET" qBasicS
    (.httpErr ⟨403, "CSRF token validation failed", none, none⟩) (by decide)
  have h5 := csrf_retry_classification.2.2.2.2.1 oracleCsrfW "GET" qBasicS
    (.httpErr ⟨403, "CSRF token validation failed", none, none⟩) "newtok"
    ⟨⟨none, some "SAP_SESSIONID=zz", [("SAP_SESSIONID", "zz")], cfgBasicS⟩, 1, 0, 2⟩
    (by decide) (by rfl)
  exact ⟨h4.1, h4.2, h5.1, h5.2⟩

/-! ## Refresh-oracle index preservation through the base pipeline

The `ri` field counts token-endpoint calls: it advances exactly when
`refreshTokenM` makes its network call.  The base pipeline never touches
it, so `ri` is a faithful observable for "no refresh was attempted". -/

theorem ri_fetchCsrfAux (oracle : Nat → ReqOutcome) (rc : Nat) :
    ∀ (n : Nat) (q : RunS), ((fetchCsrfAux oracle rc n q).2).ri = q.ri := by
  intro n
  induction n with
  | zero => intro q; rfl
  | succ m ih =>
    intro q
    unfold fetchCsrfAux
    cases oracle q.i with
    | ok r =>
      dsimp only
      split_ifs <;> simp [ingestResp, ih]
    | httpErr r =>
      dsimp only
      split_ifs <;> simp [ingestResp, ih]
    | netErr m2 =>
      dsimp only
      split_ifs <;> simp [ih]

theorem ri_fetchCsrfR (oracle : Nat → ReqOutcome) (rc rd : Nat) (q : RunS) :
    ((fetchCsrfR oracle rc rd q).2.1).ri = q.ri := by
  unfold fetchCsrfR
  dsimp only
  exact ri_fetchCsrfAux oracle rc (rc + 1) q

theorem ri_replayOnce (oracle : Nat → ReqOutcome) (q : RunS) :
    ((replayOnce oracle q).2.1).ri = q.ri := by
  unfold replayOnce
  cases oracle q.i <;> simp [ingestResp]

theorem ri_basic401GetPath (oracle : Nat → ReqOutcome) (q : RunS) (e : ReqOutcome) :
    ((basic401GetPath oracle q e).2.1).ri = q.ri := by
  unfold basic401GetPath
  by_cases h1 : jsTruthy q.conn.cookies
  · simp only [h1]
    simpa using ri_replayOnce oracle q
  · simp only [h1]
    rcases hf : fetchCsrfR oracle 3 1000 q with ⟨res, q1, ev⟩
    have hc1 : q1.ri = q.ri := by
      have h := ri_fetchCsrfR oracle 3 1000 q
      rw [hf] at h
      exact h
    cases res with
    | error err => simpa using hc1
    | ok t =>
      dsimp only
      by_cases h2 : jsTruthy q1.conn.cookies
      · simp only [h2]
        rcases hr : replayOnce oracle { q1 with conn := { q1.conn with csrfToken := some t } }
          with ⟨res2, q2, ev2⟩
        have hc2 : q2.ri = q1.ri := by
          have h := ri_replayOnce oracle
            { q1 with conn := { q1.conn with csrfToken := some t } }
          rw [hr] at h
          simpa using h
        simpa [hc2] using hc1
      · simpa [h2] using hc1

theorem ri_recoverFromError (oracle : Nat → ReqOutcome) (nm : String)
    (q : RunS) (e : ReqOutcome) :
    ((recoverFromError oracle nm q e).2.1).ri = q.ri := by
  unfold recoverFromError
  split_ifs with h1 h2
  · rcases hf : fetchCsrfR oracle 5 2000 q with ⟨res, q1, ev⟩
    have hc1 : q1.ri = q.ri := by
      have h := ri_fetchCsrfR oracle 5 2000 q
      rw [hf] at h
      exact h
    cases res with
    | error err => simpa using hc1
    | ok t =>
      dsimp only
      rcases hr : replayOnce oracle { q1 with conn := { q1.conn with csrfToken := some t } }
        with ⟨res2, q2, ev2⟩
      have hc2 : q2.ri = q1.ri := by
        have h := ri_replayOnce oracle
          { q1 with conn := { q1.conn with csrfToken := some t } }
        rw [hr] at h
        simpa using h
      simpa [hc2] using hc1
  · exact ri_basic401GetPath oracle q e
  · rfl

theorem ri_mainAndRecover (oracle : Nat → ReqOutcome) (nm : String) (q : RunS) :
    ((mainAndRecover oracle nm q).2.1).ri = q.ri := by
  unfold mainAndRecover
  cases ho : oracle q.i with
  | ok r => simp [ingestResp]
  | httpErr r =>
    dsimp only
    rcases hr : recoverFromError oracle nm (ingestResp { q with i := q.i + 1 } r) (.httpErr r)
      with ⟨res, q2, ev⟩
    have hc : q2.ri = q.ri := by
      have h := ri_recoverFromError oracle nm
        (ingestResp { q with i := q.i + 1 } r) (.httpErr r)
      rw [hr] at h
      simpa [ingestResp] using h
    simpa using hc
  | netErr m =>
    dsimp only
    rcases hr : recoverFromError oracle nm { q with i := q.i + 1 } (.netErr m)
      with ⟨res, q2, ev⟩
    have hc : q2.ri = q.ri := by
      have h := ri_recoverFromError oracle nm { q with i := q.i + 1 } (.netErr m)
      rw [hr] at h
      simpa using h
    simpa using hc

theorem ri_upfrontCsrfStep (oracle : Nat → ReqOutcome) (nm : String) (q : RunS) :
    ((upfrontCsrfStep oracle nm q).1).ri = q.ri := by
  unfold upfrontCsrfStep
  split_ifs with h1
  · rcases hf : fetchCsrfR oracle 3 1000 q with ⟨res, q1, ev⟩
    have hc1 : q1.ri = q.ri := by
      have h := ri_fetchCsrfR oracle 3 1000 q
      rw [hf] at h
      exact h
    cases res with
    | ok t => simpa using hc1
    | error err => simpa using hc1
  · rfl

theorem ri_baseRun (oracle : Nat → ReqOutcome) (opts : ReqOptions) (q : RunS) :
    ((baseRun oracle opts q).2.1).ri = q.ri := by
  unfold baseRun
  dsimp only
  rcases hu : upfrontCsrfStep oracle (jsToUpper opts.method) q with ⟨q1, ev1⟩
  have hc1 : q1.ri = q.ri := by
    have h := ri_upfrontCsrfStep oracle (jsToUpper opts.method) q
    rw [hu] at h
    exact h
  rcases hm : mainAndRecover oracle (jsToUpper opts.method) q1 with ⟨res, q2, ev2⟩
  have hc2 : q2.ri = q1.ri := by
    have h := ri_mainAndRecover oracle (jsToUpper opts.method) q1
    rw [hm] at h
    exact h
  simpa [hc2] using hc1

/-! ## C3: permission-denied classification -/

/-- C3 counterexample: the body `no authorization` matches the claim's
case-insensitive marker, yet the JWT run performs a token-endpoint call
(`ri` advances and a `refresh` event is emitted) because the source
matches the markers case-sensitively. -/
theorem permission_caseinsensitive_cex :
    claimInsensitiveContains "no authorization" "No authorization" = true ∧
    (jwtRun oracleNoAuthLower refreshWireNew optsGetS qJwtS).2.1.ri = 1 ∧
    Event.refresh ∈ (jwtRun oracleNoAuthLower refreshWireNew optsGetS qJwtS).2.2 := by
  refine ⟨by decide, by rfl, by decide⟩

/-- C3 (amended): in the JWT variant, for every 401/403 response whose
body contains one of the fixed permission-denied markers
`ExceptionResourceNoAccess`, `No authorization`, `Missing authorization` —
matched as case-sensitive substrings — no token refresh is attempted (the
run makes no token-endpoint call: `ri` is unchanged) and the error is
propagated unchanged as permission-denied rather than credential-expired;
in particular a 403 body containing `No authorization` never triggers a
refresh. -/
theorem permission_markers_no_refresh (oracle : Nat → ReqOutcome)
    (refreshO : Nat → RefreshWire) (opts : ReqOptions) (q q1 : RunS)
    (r : Resp) (ev : List Event)
    (hbase : baseRun oracle opts q = (.error (.http r), q1, ev))
    (hstatus : r.status = 401 ∨ r.status = 403)
    (hperm : isPermissionText r.body = true) :
    jwtRun oracle refreshO opts q = (.error (.http r), q1, ev) ∧
    (jwtRun oracle refreshO opts q).2.1.ri = q.ri := by
  have hj : jwtRun oracle refreshO opts q = (.error (.http r), q1, ev) := by
    unfold jwtRun
    rw [hbase]
    rcases hstatus with h | h <;> simp [h, hperm]
  refine ⟨hj, ?_⟩
  rw [hj]
  have hri := ri_baseRun oracle opts q
  rw [hbase] at hri
  exact hri

/-- Witness for C3 (amended) at a concrete 403 with body
`No authorization`: the error propagates unchanged and no token-endpoint
call is made. -/
theorem permission_markers_no_refresh_witness :
    jwtRun oracleNoAuthExact refreshWireNew optsGetS qJwtS =
      (.error (.http ⟨403, "No authorization", none, none⟩),
        ⟨⟨none, none, [], cfgJwtS⟩, 1, 0, 1⟩,
        [.main (.httpErr ⟨403, "No authorization", none, none⟩)]) ∧
    (jwtRun oracleNoAuthExact refreshWireNew optsGetS qJwtS).2.1.ri = qJwtS.ri :=
  permission_markers_no_refresh oracleNoAuthExact refreshWireNew optsGetS qJwtS
    ⟨⟨none, none, [], cfgJwtS⟩, 1, 0, 1⟩
    ⟨403, "No authorization", none, none⟩
    [.main (.httpErr ⟨403, "No authorization", none, none⟩)]
    (by rfl) (Or.inr (by rfl)) (by decide)

/-! ## C2: retry-once ceiling in the JWT request path -/

theorem shouldRetryCsrf_jwt (c : Conn) (e : ReqOutcome) (cm : Option String)
    (h : c.config.authType = AuthType.jwt) : shouldRetryCsrf c e cm = false := by
  unfold shouldRetryCsrf
  cases e <;> simp [h]

theorem countMain_append (a b : List Event) :
    countMain (a ++ b) = countMain a + countMain b := by
  simp [countMain, List.filter_append]

theorem countMain_nil : countMain [] = 0 := rfl

theorem countMain_csrf_cons (a b : Nat) (l : List Event) :
    countMain (Event.csrf a b :: l) = countMain l := by
  simp [countMain, List.filter]

theorem countMain_refresh_cons (l : List Event) :
    countMain (Event.refresh :: l) = countMain l := by
  simp [countMain, List.filter]

theorem events_upfrontCsrfStep (oracle : Nat → ReqOutcome) (nm : String) (q : RunS) :
    (upfrontCsrfStep oracle nm q).2 =
      (if mutatingMethod nm && !jsTruthy q.conn.csrfToken then [Event.csrf 3 1000]
       else []) := by
  unfold upfrontCsrfStep
  split_ifs with h
  · rcases hf : fetchCsrfR oracle 3 1000 q with ⟨res, q1, ev⟩
    have hev : ev = [.csrf 3 1000] := by
      have h2 := events_fetchCsrfR oracle 3 1000 q
      rw [hf] at h2
      exact h2
    cases res <;> simp [hev]
  · rfl

theorem countMain_upfrontCsrfStep (oracle : Nat → ReqOutcome) (nm : String) (q : RunS) :
    countMain (upfrontCsrfStep oracle nm q).2 = 0 := by
  rw [events_upfrontCsrfStep]
  split_ifs <;> rfl

/-- Under JWT, the base pipeline issues the original request exactly once:
its events are main-free fetch events followed by one `main` event, and
its result is that outcome, success returned and errors rethrown. -/
theorem baseRun_jwt_events (oracle : Nat → ReqOutcome) (opts : ReqOptions) (q : RunS)
    (hjwt : q.conn.config.authType = AuthType.jwt) :
    ∃ ev0 o, (baseRun oracle opts q).2.2 = ev0 ++ [.main o] ∧ countMain ev0 = 0 ∧
      (baseRun oracle opts q).1 = mainResult o := by
  unfold baseRun
  dsimp only
  rcases hu : upfrontCsrfStep oracle (jsToUpper opts.method) q with ⟨q1, ev1⟩
  have hev1 : countMain ev1 = 0 := by
    have h := countMain_upfrontCsrfStep oracle (jsToUpper opts.method) q
    rw [hu] at h
    exact h
  have hcfg1 : q1.conn.config = q.conn.config := by
    have h := config_upfrontCsrfStep oracle (jsToUpper opts.method) q
    rw [hu] at h
    exact h
  unfold mainAndRecover
  dsimp only
  cases ho : oracle q1.i with
  | ok r => exact ⟨ev1, .ok r, rfl, hev1, rfl⟩
  | httpErr r =>
    dsimp only
    have hja : (ingestResp { q1 with i := q1.i + 1 } r).conn.config.authType =
        AuthType.jwt := by
      rw [config_ingestResp]
      simpa [hcfg1] using hjwt
    unfold recoverFromError
    rw [shouldRetryCsrf_jwt _ _ _ hja]
    simp only [hja, Bool.false_eq_true, if_false]
    have hd : (decide (AuthType.jwt = AuthType.basic)) = false := by decide
    simp only [hd, Bool.and_false, Bool.false_eq_true, if_false]
    exact ⟨ev1, .httpErr r, rfl, hev1, rfl⟩
  | netErr m =>
    dsimp only
    unfold recoverFromError
    rw [shouldRetryCsrf_netErr]
    simp only [Bool.false_eq_true, if_false]
    have hd : errStatusIs (.netErr m) 401 = false := rfl
    simp only [hd, Bool.false_and, Bool.false_eq_true, if_false]
    exact ⟨ev1, .netErr m, rfl, hev1, rfl⟩

theorem countMain_baseRun_jwt (oracle : Nat → ReqOutcome) (opts : ReqOptions)
    (q : RunS) (hjwt : q.conn.config.authType = AuthType.jwt) :
    countMain (baseRun oracle opts q).2.2 = 1 := by
  obtain ⟨ev0, o, hev, hc0, _⟩ := baseRun_jwt_events oracle opts q hjwt
  rw [hev, countMain_append, hc0]
  rfl

theorem countMain_refreshTokenM (refreshO : Nat → RefreshWire) (q : RunS) :
    countMain (refreshTokenM refreshO q).2.2 = 0 := by
  unfold refreshTokenM
  dsimp only
  split_ifs
  · rfl
  · rfl
  · cases refreshJwtToken (q.conn.config.refreshToken.getD "") (refreshO q.ri) with
    | error m => rfl
    | ok p =>
      rcases p with ⟨a, b⟩
      rfl

theorem authType_refreshTokenM (refreshO : Nat → RefreshWire) (q : RunS) :
    ((refreshTokenM refreshO q).2.1).conn.config.authType = q.conn.config.authType :=
  (refreshTokenM_config_fields refreshO q).2.2.1

theorem countMain_connectRun (oracle : Nat → ReqOutcome)
    (refreshO : Nat → RefreshWire) (q : RunS) :
    countMain (connectRun oracle refreshO q).2.2 = 0 := by
  unfold connectRun
  rcases hf : fetchCsrfR oracle 3 1000 q with ⟨res, q1, ev⟩
  have hev : ev = [.csrf 3 1000] := by
    have h2 := events_fetchCsrfR oracle 3 1000 q
    rw [hf] at h2
    exact h2
  subst hev
  cases res with
  | ok t => rfl
  | error e =>
    cases e with
    | http r =>
      dsimp only
      split_ifs with h1 h2 h3
      · rfl
      · rcases hr : refreshTokenM refreshO q1 with ⟨res2, q2, ev2⟩
        have hev2 : countMain ev2 = 0 := by
          have h := countMain_refreshTokenM refreshO q1
          rw [hr] at h
          exact h
        cases res2 with
        | error e2 =>
          dsimp only
          rw [countMain_append, hev2]
          rfl
        | ok u =>
          rcases hf2 : fetchCsrfR oracle 3 1000 q2 with ⟨res3, q3, ev3⟩
          try simp only [hf2]
          have hev3 : ev3 = [.csrf 3 1000] := by
            have h2 := events_fetchCsrfR oracle 3 1000 q2
            rw [hf2] at h2
            exact h2
          subst hev3
          cases res3 <;>
            simp [countMain_append, countMain_csrf_cons, countMain_nil, hev2]
      · rfl
      · rfl
    | net m => rfl
    | csrfFetchFailed a b => rfl
    | csrfMissing => rfl
    | terminalAuth m => rfl
    | unexpected m => rfl

theorem authType_connectRun (oracle : Nat → ReqOutcome)
    (refreshO : Nat → RefreshWire) (q : RunS) :
    ((connectRun oracle refreshO q).2.1).conn.config.authType =
      q.conn.config.authType := by
  unfold connectRun
  rcases hf : fetchCsrfR oracle 3 1000 q with ⟨res, q1, ev⟩
  have hc1 : q1.conn.config = q.conn.config := by
    have h := config_fetchCsrfR oracle 3 1000 q
    rw [hf] at h
    exact h
  cases res with
  | ok t => simp [hc1]
  | error e =>
    cases e with
    | http r =>
      dsimp only
      split_ifs with h1 h2 h3
      · simp [hc1]
      · rcases hr : refreshTokenM refreshO q1 with ⟨res2, q2, ev2⟩
        have hc2 : q2.conn.config.authType = q1.conn.config.authType := by
          have h := authType_refreshTokenM refreshO q1
          rw [hr] at h
          exact h
        cases res2 with
        | error e2 => simp [hc2, hc1]
        | ok u =>
          rcases hf2 : fetchCsrfR oracle 3 1000 q2 with ⟨res3, q3, ev3⟩
          try simp only [hf2]
          have hc3 : q3.conn.config = q2.conn.config := by
            have h := config_fetchCsrfR oracle 3 1000 q2
            rw [hf2] at h
            exact h
          cases res3 <;> simp [hc3, hc2, hc1]
      · simp [hc1]
      · simp [hc1]
    | net m => simp [hc1]
    | csrfFetchFailed a b => simp [hc1]
    | csrfMissing => simp [hc1]
    | terminalAuth m => simp [hc1]
    | unexpected m => simp [hc1]

/-- C2: in the JWT request path the original request is issued at most
twice — the initial attempt plus at most one replay after a refresh
(`countMain ≤ 2` over every oracle); and when the initial attempt fails
401/403 with a non-permission body, refresh capability is present, the
refresh succeeds, and the single replay fails again with 401 or 403, the
call terminates with the terminal re-authenticate error, its events are
exactly those accumulated so far (so no further refresh or replay is
attempted within the same call), and the original request was issued
exactly twice. -/
theorem jwt_auth_retry_once (oracle : Nat → ReqOutcome) (refreshO : Nat → RefreshWire)
    (opts : ReqOptions) (q : RunS) (hjwt : q.conn.config.authType = AuthType.jwt) :
    countMain (jwtRun oracle refreshO opts q).2.2 ≤ 2 ∧
    (∀ (r1 r2 : Resp) (q1 : RunS) (ev1 : List Event),
      baseRun oracle opts q = (.error (.http r1), q1, ev1) →
      (r1.status = 401 ∨ r1.status = 403) →
      isPermissionText r1.body = false →
      canRefreshToken q1.conn.config = true →
      ∀ (q2 : RunS) (ev2 : List Event),
        refreshTokenM refreshO q1 = (.ok (), q2, ev2) →
        ∀ (cres : Except AbapError Unit) (q3 : RunS) (ev3 : List Event),
          connectRun oracle refreshO q2 = (cres, q3, ev3) →
          ∀ (q4 : RunS) (ev4 : List Event),
            baseRun oracle opts q3 = (.error (.http r2), q4, ev4) →
            (r2.status = 401 ∨ r2.status = 403) →
            jwtRun oracle refreshO opts q =
              (.error (.terminalAuth
                  "JWT token has expired and refresh failed. Please re-authenticate."),
                q4, ev1 ++ ev2 ++ ev3 ++ ev4) ∧
            countMain (ev1 ++ ev2 ++ ev3 ++ ev4) = 2) := by
  constructor
  · unfold jwtRun
    rcases hb : baseRun oracle opts q with ⟨res, q1, ev⟩
    try simp only [hb]
    have hev : countMain ev = 1 := by
      have h := countMain_baseRun_jwt oracle opts q hjwt
      rw [hb] at h
      exact h
    have hcq1 : q1.conn.config = q.conn.config := by
      have h := config_baseRun oracle opts q
      rw [hb] at h
      exact h
    cases res with
    | ok r => simpa [hev] using Nat.le_succ 1
    | error e =>
      cases e with
      | http r =>
        dsimp only
        split_ifs with hst hperm hcan
        · simp [hev]
        · rcases hr : refreshTokenM refreshO q1 with ⟨res2, q2, ev2⟩
          try simp only [hr]
          have h2 : countMain ev2 = 0 := by
            have h := countMain_refreshTokenM refreshO q1
            rw [hr] at h
            exact h
          cases res2 with
          | error e2 => simp [countMain_append, hev, h2]
          | ok u =>
            rcases hc : connectRun oracle refreshO q2 with ⟨cres, q3, ev3⟩
            try simp only [hc]
            have h3 : countMain ev3 = 0 := by
              have h := countMain_connectRun oracle refreshO q2
              rw [hc] at h
              exact h
            have hjwt3 : q3.conn.config.authType = AuthType.jwt := by
              have ha := authType_connectRun oracle refreshO q2
              rw [hc] at ha
              have hbq : q2.conn.config.authType = q1.conn.config.authType := by
                have h := authType_refreshTokenM refreshO q1
                rw [hr] at h
                exact h
              rw [ha, hbq, hcq1]
              exact hjwt
            rcases hb2 : baseRun oracle opts q3 with ⟨res4, q4, ev4⟩
            try simp only [hb2]
            have h4 : countMain ev4 = 1 := by
              have h := countMain_baseRun_jwt oracle opts q3 hjwt3
              rw [hb2] at h
              exact h
            cases res4 with
            | ok r2 => simp [countMain_append, hev, h2, h3, h4]
            | error e4 =>
              cases e4 with
              | http r2 =>
                dsimp only
                split_ifs <;> simp [countMain_append, hev, h2, h3, h4]
              | net m => simp [countMain_append, hev, h2, h3, h4]
              | csrfFetchFailed a b => simp [countMain_append, hev, h2, h3, h4]
              | csrfMissing => simp [countMain_append, hev, h2, h3, h4]
              | terminalAuth m => simp [countMain_append, hev, h2, h3, h4]
              | unexpected m => simp [countMain_append, hev, h2, h3, h4]
        · simp [hev]
        · simp [hev]
      | net m => simpa [hev] using Nat.le_succ 1
      | csrfFetchFailed a b => simpa [hev] using Nat.le_succ 1
      | csrfMissing => simpa [hev] using Nat.le_succ 1
      | terminalAuth m => simpa [hev] using Nat.le_succ 1
      | unexpected m => simpa [hev] using Nat.le_succ 1
  · intro r1 r2 q1 ev1 hb1 hst1 hperm hcan q2 ev2 hr cres q3 ev3 hc q4 ev4 hb2 hst2
    have h1 : countMain ev1 = 1 := by
      have h := countMain_baseRun_jwt oracle opts q hjwt
      rw [hb1] at h
      exact h
    have h2 : countMain ev2 = 0 := by
      have h := countMain_refreshTokenM refreshO q1
      rw [hr] at h
      exact h
    have h3 : countMain ev3 = 0 := by
      have h := countMain_connectRun oracle refreshO q2
      rw [hc] at h
      exact h
    have hjwt3 : q3.conn.config.authType = AuthType.jwt := by
      have ha := authType_connectRun oracle refreshO q2
      rw [hc] at ha
      have hbq : q2.conn.config.authType = q1.conn.config.authType := by
        have h := authType_refreshTokenM refreshO q1
        rw [hr] at h
        exact h
      have hcq1 : q1.conn.config = q.conn.config := by
        have h := config_baseRun oracle opts q
        rw [hb1] at h
        exact h
      rw [ha, hbq, hcq1]
      exact hjwt
    have h4 : countMain ev4 = 1 := by
      have h := countMain_baseRun_jwt oracle opts q3 hjwt3
      rw [hb2] at h
      exact h
    constructor
    · unfold jwtRun
      rw [hb1]
      have hs1 : (decide (r1.status = 401) || decide (r1.status = 403)) = true := by
        rcases hst1 with h | h <;> simp [h]
      simp only [hs1, if_true, hperm, Bool.false_eq_true, if_false, hcan]
      rw [hr]
      dsimp only
      rw [hc]
      dsimp only
      rw [hb2]
      have hs2 : (decide (r2.status = 401) || decide (r2.status = 403)) = true := by
        rcases hst2 with h | h <;> simp [h]
      simp [hs2]
    · simp [countMain_append, h1, h2, h3, h4]

/-- Witness for C2 at a concrete double auth failure: at most two main
calls in general, and in this run the terminal re-authenticate error with
exactly two issues of the original request. -/
theorem jwt_auth_retry_once_witness :
    countMain (jwtRun oracleExpiredTwice refreshWireNew optsGetS qJwtS).2.2 ≤ 2 ∧
    (jwtRun oracleExpiredTwice refreshWireNew optsGetS qJwtS =
      (.error (.terminalAuth
          "JWT token has expired and refresh failed. Please re-authenticate."),
        ⟨⟨some "tok", none, [], cfgJwtS2⟩, 3, 1, 3⟩,
        [.main (.httpErr ⟨401, "Session expired", none, none⟩)] ++ [.refresh] ++
          [.csrf 3 1000] ++
          [.main (.httpErr ⟨403, "Session still expired", none, none⟩)]) ∧
      countMain ([.main (.httpErr ⟨401, "Session expired", none, none⟩)] ++
        [Event.refresh] ++ [.csrf 3 1000] ++
        [.main (.httpErr ⟨403, "Session still expired", none, none⟩)]) = 2) := by
  have h := jwt_auth_retry_once oracleExpiredTwice refreshWireNew optsGetS qJwtS
    (by decide)
  refine ⟨h.1, ?_⟩
  exact h.2 ⟨401, "Session expired", none, none⟩
    ⟨403, "Session still expired", none, none⟩
    ⟨⟨none, none, [], cfgJwtS⟩, 1, 0, 1⟩
    [.main (.httpErr ⟨401, "Session expired", none, none⟩)]
    (by rfl) (Or.inl (by rfl)) (by decide) (by decide)
    ⟨⟨none, none, [], cfgJwtS2⟩, 1, 1, 1⟩ [.refresh] (by rfl)
    (.ok ()) ⟨⟨some "tok", none, [], cfgJwtS2⟩, 2, 1, 2⟩ [.csrf 3 1000] (by rfl)
    ⟨⟨some "tok", none, [], cfgJwtS2⟩, 3, 1, 3⟩
    [.main (.httpErr ⟨403, "Session still expired", none, none⟩)]
    (by rfl) (Or.inr (by rfl))

/-! ## C1: refresh de-duplication across concurrent callers -/

theorem phase_update_refreshing {n : Nat} (f : Fin n → CallerPhase) (i a : Fin n)
    (v : CallerPhase) (hv : v ≠ CallerPhase.refreshing)
    (ha : Function.update f i v a = CallerPhase.refreshing) :
    a ≠ i ∧ f a = CallerPhase.refreshing := by
  by_cases hai : a = i
  · subst hai
    rw [Function.update_same] at ha
    exact absurd ha hv
  · rw [Function.update_noteq hai] at ha
    exact ⟨hai, ha⟩

theorem phase_update_eq {n : Nat} (f : Fin n → CallerPhase) (i a : Fin n)
    (v : CallerPhase) (ha : Function.update f i v a = CallerPhase.refreshing) :
    (a = i ∧ v = CallerPhase.refreshing) ∨
      (a ≠ i ∧ f a = CallerPhase.refreshing) := by
  by_cases hai : a = i
  · subst hai
    rw [Function.update_same] at ha
    exact Or.inl ⟨rfl, ha⟩
  · rw [Function.update_noteq hai] at ha
    exact Or.inr ⟨hai, ha⟩

theorem mutexInv_step {n : Nat} {s t : RefreshSys n}
    (h : MutexInv s) (hs : rAnyStep s t) : MutexInv t := by
  obtain ⟨h1, h2⟩ := h
  obtain ⟨l, hstep⟩ := hs
  cases hstep with
  | enterBusy s i hp hf =>
    refine ⟨?_, ?_⟩
    · intro hfl
      have hff : s.flag = false := hfl
      rw [hf] at hff
      cases hff
    · intro a b ha hb
      obtain ⟨-, ha2⟩ := phase_update_refreshing _ _ _ _ (by decide) ha
      obtain ⟨-, hb2⟩ := phase_update_refreshing _ _ _ _ (by decide) hb
      exact h2 a b ha2 hb2
  | enterFree s i hp hf =>
    refine ⟨?_, ?_⟩
    · intro hfl
      cases hfl
    · intro a b ha hb
      rcases phase_update_eq _ _ _ _ ha with ⟨hai, -⟩ | ⟨-, ha2⟩
      · rcases phase_update_eq _ _ _ _ hb with ⟨hbi, -⟩ | ⟨-, hb2⟩
        · rw [hai, hbi]
        · exact absurd hb2 (h1 hf b)
      · exact absurd ha2 (h1 hf a)
  | finishRefresh s i hp =>
    refine ⟨?_, ?_⟩
    · intro _ j hj
      obtain ⟨hji, hj2⟩ := phase_update_refreshing _ _ _ _ (by decide) hj
      exact hji (h2 j i hj2 hp)
    · intro a b ha hb
      obtain ⟨-, ha2⟩ := phase_update_refreshing _ _ _ _ (by decide) ha
      obtain ⟨-, hb2⟩ := phase_update_refreshing _ _ _ _ (by decide) hb
      exact h2 a b ha2 hb2
  | wake s i hp hf =>
    refine ⟨?_, ?_⟩
    · intro _ j hj
      obtain ⟨-, hj2⟩ := phase_update_refreshing _ _ _ _ (by decide) hj
      exact absurd hj2 (h1 hf j)
    · intro a b ha hb
      obtain ⟨-, ha2⟩ := phase_update_refreshing _ _ _ _ (by decide) ha
      obtain ⟨-, hb2⟩ := phase_update_refreshing _ _ _ _ (by decide) hb
      exact h2 a b ha2 hb2

theorem mutexInv_reachable {n : Nat} {s : RefreshSys n}
    (h : Relation.ReflTransGen rAnyStep (RefreshSys.init n) s) : MutexInv s := by
  induction h with
  | refl =>
    refine ⟨fun _ i => ?_, fun i j hi _ => ?_⟩
    · intro hc
      cases hc
    · cases hi
  | tail _ hstep ih => exact mutexInv_step ih hstep

theorem dedupInv_step {n : Nat} {s t : RefreshSys n}
    (h : DedupInv s) (hs : rNoFinishStep s t) : DedupInv t := by
  obtain ⟨l, hl, hstep⟩ := hs
  cases hstep with
  | enterBusy s i hp hf => exact h
  | enterFree s i hp hf =>
    rcases h with ⟨h0, _⟩ | ⟨_, h1⟩
    · right
      exact ⟨by rw [h0], rfl⟩
    · rw [hf] at h1
      cases h1
  | finishRefresh s i hp => exact absurd rfl hl
  | wake s i hp hf => exact h

theorem dedupInv_reachable {n : Nat} {s : RefreshSys n}
    (h : Relation.ReflTransGen rNoFinishStep (RefreshSys.init n) s) : DedupInv s := by
  induction h with
  | refl => exact Or.inl ⟨rfl, rfl⟩
  | tail _ hstep ih => exact dedupInv_step ih hstep

/-- C1: in the JWT variant's refresh system, a caller can never start a
refresh while one is in flight (no `enterFree` step exists from a state
whose flag is set — it waits instead); at most one caller is ever inside
the refresh section in any reachable state; and along any interleaving of
any number of concurrent callers within one expiry event (before the
in-flight refresh completes), at most one network call is made to the
token endpoint. -/
theorem refresh_dedup (n : Nat) (s : RefreshSys n) :
    (∀ t : RefreshSys n, s.flag = true → ¬RStep RLabel.enterFree s t) ∧
    (Relation.ReflTransGen rAnyStep (RefreshSys.init n) s →
      ∀ i j : Fin n, s.phase i = CallerPhase.refreshing →
        s.phase j = CallerPhase.refreshing → i = j) ∧
    (Relation.ReflTransGen rNoFinishStep (RefreshSys.init n) s →
      s.tokenCalls ≤ 1) := by
  refine ⟨?_, ?_, ?_⟩
  · intro t hf hstep
    cases hstep with
    | enterFree s i hp hff => rw [hf] at hff; cases hff
  · intro h i j hi hj
    exact (mutexInv_reachable h).2 i j hi hj
  · intro h
    rcases dedupInv_reachable h with ⟨h0, _⟩ | ⟨h1, _⟩
    · rw [h0]
      exact Nat.zero_le 1
    · rw [h1]

/-- Witness for C1: after caller 0 of two claims the refresh, no second
refresh can start, mutual exclusion holds, and exactly one token-endpoint
call was made. -/
theorem refresh_dedup_witness :
    (∀ t : RefreshSys 2, sysW.flag = true → ¬RStep RLabel.enterFree sysW t) ∧
    (∀ i j : Fin 2, sysW.phase i = CallerPhase.refreshing →
      sysW.phase j = CallerPhase.refreshing → i = j) ∧
    sysW.tokenCalls ≤ 1 := by
  have htrace : Relation.ReflTransGen (@rAnyStep 2) (RefreshSys.init 2) sysW :=
    Relation.ReflTransGen.single
      ⟨RLabel.enterFree, RStep.enterFree (RefreshSys.init 2) 0 rfl rfl⟩
  have htraceNF : Relation.ReflTransGen (@rNoFinishStep 2) (RefreshSys.init 2) sysW :=
    Relation.ReflTransGen.single
      ⟨RLabel.enterFree, by decide, RStep.enterFree (RefreshSys.init 2) 0 rfl rfl⟩
  exact ⟨(refresh_dedup 2 sysW).1, (refresh_dedup 2 sysW).2.1 htrace,
    (refresh_dedup 2 sysW).2.2 htraceNF⟩

end AbapConn
